import Mathlib

/-!
# Orders admin page controller (service/static/js/rest_api.js)

A shallow embedding of the jQuery form controller.  The DOM is an explicit
`Page` record: the six text inputs of the order form, the four text inputs of
the item form, and the strings appended to the flash area and to the two
search-result regions, with a model of what the browser makes of them.  A click
handler maps a page to the page it leaves behind together with the request it
issues; a `done` / `fail` continuation maps a page and the response to the
next page.
-/

namespace RestApi

/-! ## JavaScript values and the conversions the handlers rely on -/

/-- A scalar found in a field of a JSON response.  `undefined` is what reading
an absent property gives.  Numbers are integers in the range where JavaScript
prints them in plain decimal; fractional numbers are floating point and are
not modelled. -/
inductive JsVal where
  | undefined
  | null
  | num (n : Int)
  | str (s : String)
  deriving DecidableEq, Repr

/-- Text an input holds after `$(sel).val(v)`: jQuery stores the empty string
for `null` / `undefined`, the decimal text for a number, a string unchanged. -/
def val_text : JsVal → String
  | .undefined => ""
  | .null => ""
  | .num n => toString n
  | .str s => s

/-- Text a template literal substitutes for `${v}` (ToString). -/
def template_text : JsVal → String
  | .undefined => "undefined"
  | .null => "null"
  | .num n => toString n
  | .str s => s

/-- The string `$(sel).append(v)` is handed for a value: the empty string for
`null` / `undefined`, which adds nothing, the decimal text for a number, a
string itself.  What the element holds afterwards is decided by the browser:
see `rendered`. -/
def appended_source : JsVal → String
  | .undefined => ""
  | .null => ""
  | .num n => toString n
  | .str s => s

/-- Truthiness of a string as tested by `if (s)`: every non-empty string. -/
def truthy (s : String) : Bool := s != ""

/-! ## Page state, responses and requests -/

/-- Values of the inputs `#order_id`, `#order_amount`, ... of the order form. -/
structure OrderForm where
  id : String
  amount : String
  status : String
  address : String
  customer_id : String
  date : String
  deriving DecidableEq, Repr

/-- Values of the inputs `#item_order_id`, `#item_product_id`, ... of the item form. -/
structure ItemForm where
  order_id : String
  product_id : String
  price : String
  quantity : String
  deriving DecidableEq, Repr

/-- The part of the document the script reads and writes.  The form fields
hold text.  For the flash area and the two search-result regions the record
keeps the string appended to the element since it was last emptied; the nodes
the browser makes of that string are `flash_nodes` and `render_table`. -/
structure Page where
  order : OrderForm
  item : ItemForm
  flash_message : String
  order_search_results : String
  item_search_results : String
  deriving DecidableEq, Repr

/-- An order object of a response, as far as the script reads it. -/
structure Order where
  id : JsVal
  amount : JsVal
  status : JsVal
  address : JsVal
  customer_id : JsVal
  date : JsVal
  deriving DecidableEq, Repr

/-- An item object of a response, as far as the script reads it. -/
structure Item where
  order_id : JsVal
  product_id : JsVal
  price : JsVal
  quantity : JsVal
  deriving DecidableEq, Repr

/-- Parsed JSON body of an error response. -/
structure ErrorBody where
  message : JsVal
  deriving DecidableEq, Repr

/-- The jqXHR object handed to a `fail` continuation; `responseJSON` is absent
when the error response carried no JSON body. -/
structure Failure where
  responseJSON : Option ErrorBody
  deriving DecidableEq, Repr

/-- The `data` option of `$.ajax`: the empty string, or `JSON.stringify` of an
object literal, kept as that object's properties in insertion order. -/
inductive Body where
  | empty
  | json (properties : List (String × String))
  deriving DecidableEq, Repr

/-- The settings object passed to `$.ajax`. -/
structure Request where
  type : String
  url : String
  contentType : String
  data : Body
  deriving DecidableEq, Repr

/-! ## Utility functions -/

/-- `update_order_form_data(res)`: six `.val(...)` writes. -/
def update_order_form_data (p : Page) (res : Order) : Page :=
  let p := { p with order := { p.order with id := val_text res.id } }
  let p := { p with order := { p.order with amount := val_text res.amount } }
  let p := { p with order := { p.order with status := val_text res.status } }
  let p := { p with order := { p.order with address := val_text res.address } }
  let p := { p with order := { p.order with customer_id := val_text res.customer_id } }
  { p with order := { p.order with date := val_text res.date } }

/-- `clear_order_form_data()`: six `.val("")` writes. -/
def clear_order_form_data (p : Page) : Page :=
  let p := { p with order := { p.order with id := "" } }
  let p := { p with order := { p.order with amount := "" } }
  let p := { p with order := { p.order with status := "" } }
  let p := { p with order := { p.order with address := "" } }
  let p := { p with order := { p.order with customer_id := "" } }
  { p with order := { p.order with date := "" } }

/-- `$("#flash_message").empty()`. -/
def empty_flash (p : Page) : Page :=
  { p with flash_message := "" }

/-- `flash_message(message)`: empty the flash area, then append the message. -/
def flash_message (p : Page) (message : JsVal) : Page :=
  let p := empty_flash p
  { p with flash_message := p.flash_message ++ appended_source message }

/-- `flash_message(res.responseJSON.message)`.  Reading `.message` of an absent
`responseJSON` throws a TypeError, which ends the continuation and leaves the
page as it is at that point. -/
def flash_error_message (p : Page) (res : Failure) : Page :=
  match res.responseJSON with
  | none => p
  | some body => flash_message p body.message

/-- `update_item_form_data(res)`: four `.val(...)` writes. -/
def update_item_form_data (p : Page) (res : Item) : Page :=
  let p := { p with item := { p.item with order_id := val_text res.order_id } }
  let p := { p with item := { p.item with product_id := val_text res.product_id } }
  let p := { p with item := { p.item with price := val_text res.price } }
  { p with item := { p.item with quantity := val_text res.quantity } }

/-- `clear_item_form_data()`: four `.val("")` writes. -/
def clear_item_form_data (p : Page) : Page :=
  let p := { p with item := { p.item with order_id := "" } }
  let p := { p with item := { p.item with product_id := "" } }
  let p := { p with item := { p.item with price := "" } }
  { p with item := { p.item with quantity := "" } }

/-! ## Order handlers -/

/-- Click handler of `#order_create-btn`. -/
def order_create_click (p : Page) : Page × Request :=
  let amount := p.order.amount
  let status := p.order.status
  let address := p.order.address
  let customer_id := p.order.customer_id
  let date := p.order.date
  let data := [("amount", amount), ("status", status), ("address", address),
    ("customer_id", customer_id), ("date", date)]
  let p := empty_flash p
  (p, { type := "POST", url := "/orders", contentType := "application/json",
        data := Body.json data })

/-- Success continuation of order create. -/
def order_create_done (p : Page) (res : Order) : Page :=
  flash_message (update_order_form_data p res) (JsVal.str "Success")

/-- Failure continuation of order create. -/
def order_create_fail (p : Page) (res : Failure) : Page :=
  flash_error_message p res

/-- Click handler of `#order_update-btn`. -/
def order_update_click (p : Page) : Page × Request :=
  let order_id := p.order.id
  let amount := p.order.amount
  let status := p.order.status
  let address := p.order.address
  let customer_id := p.order.customer_id
  let date := p.order.date
  let data := [("id", order_id), ("amount", amount), ("status", status),
    ("address", address), ("customer_id", customer_id), ("date", date)]
  let p := empty_flash p
  (p, { type := "PUT", url := "/orders/" ++ order_id, contentType := "application/json",
        data := Body.json data })

/-- Success continuation of order update. -/
def order_update_done (p : Page) (res : Order) : Page :=
  flash_message (update_order_form_data p res) (JsVal.str "Success")

/-- Failure continuation of order update. -/
def order_update_fail (p : Page) (res : Failure) : Page :=
  flash_error_message p res

/-- Click handler of `#order_retrieve-btn`. -/
def order_retrieve_click (p : Page) : Page × Request :=
  let order_id := p.order.id
  let p := empty_flash p
  (p, { type := "GET", url := "/orders/" ++ order_id, contentType := "application/json",
        data := Body.empty })

/-- Success continuation of order retrieve. -/
def order_retrieve_done (p : Page) (res : Order) : Page :=
  flash_message (update_order_form_data p res) (JsVal.str "Success")

/-- Failure continuation of order retrieve: the form is cleared before the
message is read. -/
def order_retrieve_fail (p : Page) (res : Failure) : Page :=
  flash_error_message (clear_order_form_data p) res

/-- Click handler of `#order_delete-btn`. -/
def order_delete_click (p : Page) : Page × Request :=
  let order_id := p.order.id
  let p := empty_flash p
  (p, { type := "DELETE", url := "/orders/" ++ order_id, contentType := "application/json",
        data := Body.empty })

/-- Success continuation of order delete; the response is not read. -/
def order_delete_done (p : Page) : Page :=
  flash_message (clear_order_form_data p) (JsVal.str "Order has been Deleted!")

/-- Failure continuation of order delete; the response is not read. -/
def order_delete_fail (p : Page) (_res : Failure) : Page :=
  flash_message p (JsVal.str "Server error!")

/-- Click handler of `#order_cancel-btn`. -/
def order_cancel_click (p : Page) : Page × Request :=
  let order_id := p.order.id
  let p := empty_flash p
  (p, { type := "PUT", url := "/orders/" ++ order_id ++ "/cancel",
        contentType := "application/json", data := Body.empty })

/-- Success continuation of order cancel. -/
def order_cancel_done (p : Page) (res : Order) : Page :=
  flash_message (update_order_form_data p res) (JsVal.str "Order has been Cancelled!")

/-- Failure continuation of order cancel; the response is not read. -/
def order_cancel_fail (p : Page) (_res : Failure) : Page :=
  flash_message p (JsVal.str "Server error!")

/-- Click handler of `#order_clear-btn`. -/
def order_clear_click (p : Page) : Page :=
  let p := { p with order := { p.order with id := "" } }
  let p := empty_flash p
  clear_order_form_data p

/-- The `queryString` local of the order search handler after its `if` chain. -/
def order_search_queryString (p : Page) : String :=
  let status := p.order.status
  let address := p.order.address
  let customer_id := p.order.customer_id
  let date := p.order.date
  let queryString := ""
  if truthy status then queryString ++ ("status=" ++ status)
  else if truthy address then queryString ++ ("address=" ++ address)
  else if truthy date then queryString ++ ("date=" ++ date)
  else if truthy customer_id then queryString ++ ("customer_id=" ++ customer_id)
  else queryString

/-- Click handler of `#order_search-btn`. -/
def order_search_click (p : Page) : Page × Request :=
  let queryString := order_search_queryString p
  let p := empty_flash p
  (p, { type := "GET", url := "/orders?" ++ queryString, contentType := "application/json",
        data := Body.empty })

/-- Failure continuation of order search. -/
def order_search_fail (p : Page) (res : Failure) : Page :=
  flash_error_message p res

/-- Own properties of the `status_map` object literal, keyed by property name. -/
def status_map : List (String × String) :=
  [("0", "Cancelled"), ("1", "Preparing"), ("2", "Delivering"), ("3", "Delivered")]

/-- The lookup `status_map[status]`: the property key is the string form of
`status`; an absent property reads as `undefined`.  Only own properties are
modelled: a string status that names a member inherited from
`Object.prototype` (such as "constructor") is outside the embedding, number
keys never name one. -/
def status_map_get (status : JsVal) : JsVal :=
  match status_map.lookup (template_text status) with
  | some label => JsVal.str label
  | none => JsVal.undefined

/-- The row template of the order search table for loop index `i`. -/
def order_row (i : Nat) (order : Order) : String :=
  "<tr id=\"row_" ++ toString i ++ "\"><td>" ++ template_text order.id ++ "</td><td>"
    ++ template_text order.amount ++ "</td><td>"
    ++ template_text (status_map_get order.status) ++ "</td><td>"
    ++ template_text order.address ++ "</td><td>"
    ++ template_text order.customer_id ++ "</td><td>"
    ++ template_text order.date ++ "</td></tr>"

/-- The `for` loop of the order search continuation, entered at index `i` with
the records `res[i], res[i+1], ...` still to visit.  `first_order` starts as the
empty string, written `none`, and becomes the record visited at index 0. -/
def order_search_loop : Nat → List Order → String → Option Order → String × Option Order
  | _, [], table, first_order => (table, first_order)
  | i, order :: rest, table, first_order =>
    let table := table ++ order_row i order
    let first_order := if i == 0 then some order else first_order
    order_search_loop (i + 1) rest table first_order

/-- The table markup before the loop of the order search continuation. -/
def order_table_head : String :=
  let table := "<table class=\"table table-striped\" cellpadding=\"10\">"
  let table := table ++ "<thead><tr>"
  let table := table ++ "<th class=\"col-md-2\">ID</th>"
  let table := table ++ "<th class=\"col-md-2\">Amount</th>"
  let table := table ++ "<th class=\"col-md-2\">Status</th>"
  let table := table ++ "<th class=\"col-md-2\">Address</th>"
  let table := table ++ "<th class=\"col-md-2\">Customer ID</th>"
  let table := table ++ "<th class=\"col-md-2\">Date</th>"
  table ++ "</tr></thead><tbody>"

/-- The `table` local of the order search continuation when it is appended to
`#order_search_results`, with the final value of `first_order`. -/
def order_search_table (res : List Order) : String × Option Order :=
  let table := order_table_head
  let first_order : Option Order := none
  let (table, first_order) := order_search_loop 0 res table first_order
  let table := table ++ "</tbody></table>"
  (table, first_order)

/-- Success continuation of order search.  The test `first_order != ""` holds
exactly when `first_order` was assigned a record: an object compares unequal
to the empty string. -/
def order_search_done (p : Page) (res : List Order) : Page :=
  let p := { p with order_search_results := "" }
  let (table, first_order) := order_search_table res
  let p := { p with order_search_results := p.order_search_results ++ table }
  let p := match first_order with
    | some order => update_order_form_data p order
    | none => p
  flash_message p (JsVal.str "Success")

/-! ## Item handlers -/

/-- Click handler of `#item_create-btn`. -/
def item_create_click (p : Page) : Page × Request :=
  let order_id := p.item.order_id
  let product_id := p.item.product_id
  let price := p.item.price
  let quantity := p.item.quantity
  let data := [("order_id", order_id), ("product_id", product_id), ("price", price),
    ("quantity", quantity)]
  let p := empty_flash p
  (p, { type := "POST", url := "/orders/" ++ order_id ++ "/items",
        contentType := "application/json", data := Body.json data })

/-- Success continuation of item create. -/
def item_create_done (p : Page) (res : Item) : Page :=
  flash_message (update_item_form_data p res) (JsVal.str "Success")

/-- Failure continuation of item create. -/
def item_create_fail (p : Page) (res : Failure) : Page :=
  flash_error_message p res

/-- Click handler of `#item_update-btn`. -/
def item_update_click (p : Page) : Page × Request :=
  let order_id := p.item.order_id
  let product_id := p.item.product_id
  let price := p.item.price
  let quantity := p.item.quantity
  let data := [("order_id", order_id), ("product_id", product_id), ("price", price),
    ("quantity", quantity)]
  let p := empty_flash p
  (p, { type := "PUT", url := "/orders/" ++ order_id ++ "/items/" ++ product_id,
        contentType := "application/json", data := Body.json data })

/-- Success continuation of item update. -/
def item_update_done (p : Page) (res : Item) : Page :=
  flash_message (update_item_form_data p res) (JsVal.str "Success")

/-- Failure continuation of item update. -/
def item_update_fail (p : Page) (res : Failure) : Page :=
  flash_error_message p res

/-- Click handler of `#item_retrieve-btn`. -/
def item_retrieve_click (p : Page) : Page × Request :=
  let order_id := p.item.order_id
  let product_id := p.item.product_id
  let p := empty_flash p
  (p, { type := "GET", url := "/orders/" ++ order_id ++ "/items/" ++ product_id,
        contentType := "application/json", data := Body.empty })

/-- Success continuation of item retrieve. -/
def item_retrieve_done (p : Page) (res : Item) : Page :=
  flash_message (update_item_form_data p res) (JsVal.str "Success")

/-- Failure continuation of item retrieve: the form is cleared before the
message is read. -/
def item_retrieve_fail (p : Page) (res : Failure) : Page :=
  flash_error_message (clear_item_form_data p) res

/-- Click handler of `#item_delete-btn`; the order id is read from `#order_id`. -/
def item_delete_click (p : Page) : Page × Request :=
  let order_id := p.order.id
  let product_id := p.item.product_id
  let p := empty_flash p
  (p, { type := "DELETE", url := "/orders/" ++ order_id ++ "/items/" ++ product_id,
        contentType := "application/json", data := Body.empty })

/-- Success continuation of item delete; the response is not read. -/
def item_delete_done (p : Page) : Page :=
  flash_message (clear_item_form_data p) (JsVal.str "Item has been Deleted!")

/-- Failure continuation of item delete; the response is not read. -/
def item_delete_fail (p : Page) (_res : Failure) : Page :=
  flash_message p (JsVal.str "Server error!")

/-- Click handler of `#item_clear-btn`. -/
def item_clear_click (p : Page) : Page :=
  let p := { p with item := { p.item with order_id := "" } }
  let p := empty_flash p
  clear_item_form_data p

/-- The `queryString` local of the item search handler after its `if` chain. -/
def item_search_queryString (p : Page) : String :=
  let price := p.item.price
  let quantity := p.item.quantity
  let queryString := ""
  if truthy price then queryString ++ ("price=" ++ price)
  else if truthy quantity then queryString ++ ("quantity=" ++ quantity)
  else queryString

/-- Click handler of `#item_search-btn`; the order id is read from `#order_id`. -/
def item_search_click (p : Page) : Page × Request :=
  let order_id := p.order.id
  let queryString := item_search_queryString p
  let p := empty_flash p
  (p, { type := "GET", url := "/orders/" ++ order_id ++ "/items?" ++ queryString,
        contentType := "application/json", data := Body.empty })

/-- The row template of the item search table for loop index `i`. -/
def item_row (i : Nat) (item : Item) : String :=
  "<tr id=\"row_" ++ toString i ++ "\"><td>" ++ template_text item.order_id ++ "</td><td>"
    ++ template_text item.product_id ++ "</td><td>"
    ++ template_text item.price ++ "</td><td>"
    ++ template_text item.quantity ++ "</td></tr>"

/-- The `for` loop of the item search continuation, entered at index `i` with
the records `res[i], res[i+1], ...` still to visit.  `first_item` starts as the
empty string, written `none`, and becomes the record visited at index 0. -/
def item_search_loop : Nat → List Item → String → Option Item → String × Option Item
  | _, [], table, first_item => (table, first_item)
  | i, item :: rest, table, first_item =>
    let table := table ++ item_row i item
    let first_item := if i == 0 then some item else first_item
    item_search_loop (i + 1) rest table first_item

/-- The table markup before the loop of the item search continuation. -/
def item_table_head : String :=
  let table := "<table class=\"table table-striped\" cellpadding=\"10\">"
  let table := table ++ "<thead><tr>"
  let table := table ++ "<th class=\"col-md-2\">Order ID</th>"
  let table := table ++ "<th class=\"col-md-2\">Product ID</th>"
  let table := table ++ "<th class=\"col-md-2\">Price</th>"
  let table := table ++ "<th class=\"col-md-2\">Quantity</th>"
  table ++ "</tr></thead><tbody>"

/-- The `table` local of the item search continuation when it is appended to
`#item_search_results`, with the final value of `first_item`. -/
def item_search_table (res : List Item) : String × Option Item :=
  let table := item_table_head
  let first_item : Option Item := none
  let (table, first_item) := item_search_loop 0 res table first_item
  let table := table ++ "</tbody></table>"
  (table, first_item)

/-- Success continuation of item search.  As for orders, `first_item != ""`
holds exactly when a record was assigned. -/
def item_search_done (p : Page) (res : List Item) : Page :=
  let p := { p with item_search_results := "" }
  let (table, first_item) := item_search_table res
  let p := { p with item_search_results := p.item_search_results ++ table }
  let p := match first_item with
    | some item => update_item_form_data p item
    | none => p
  flash_message p (JsVal.str "Success")

/-- Failure continuation of item search. -/
def item_search_fail (p : Page) (res : Failure) : Page :=
  flash_error_message p res

/-! ## Handler completions as steps of the page -/

/-- A handler completion: the success or failure continuation of an operation,
with the response it receives, or a press of one of the two Clear buttons. -/
inductive Event where
  | order_create_done (res : Order)
  | order_create_fail (res : Failure)
  | order_update_done (res : Order)
  | order_update_fail (res : Failure)
  | order_retrieve_done (res : Order)
  | order_retrieve_fail (res : Failure)
  | order_delete_done
  | order_delete_fail (res : Failure)
  | order_cancel_done (res : Order)
  | order_cancel_fail (res : Failure)
  | order_clear
  | order_search_done (res : List Order)
  | order_search_fail (res : Failure)
  | item_create_done (res : Item)
  | item_create_fail (res : Failure)
  | item_update_done (res : Item)
  | item_update_fail (res : Failure)
  | item_retrieve_done (res : Item)
  | item_retrieve_fail (res : Failure)
  | item_delete_done
  | item_delete_fail (res : Failure)
  | item_clear
  | item_search_done (res : List Item)
  | item_search_fail (res : Failure)

/-- The page after a handler completion. -/
def step (p : Page) : Event → Page
  | .order_create_done res => order_create_done p res
  | .order_create_fail res => order_create_fail p res
  | .order_update_done res => order_update_done p res
  | .order_update_fail res => order_update_fail p res
  | .order_retrieve_done res => order_retrieve_done p res
  | .order_retrieve_fail res => order_retrieve_fail p res
  | .order_delete_done => order_delete_done p
  | .order_delete_fail res => order_delete_fail p res
  | .order_cancel_done res => order_cancel_done p res
  | .order_cancel_fail res => order_cancel_fail p res
  | .order_clear => order_clear_click p
  | .order_search_done res => order_search_done p res
  | .order_search_fail res => order_search_fail p res
  | .item_create_done res => item_create_done p res
  | .item_create_fail res => item_create_fail p res
  | .item_update_done res => item_update_done p res
  | .item_update_fail res => item_update_fail p res
  | .item_retrieve_done res => item_retrieve_done p res
  | .item_retrieve_fail res => item_retrieve_fail p res
  | .item_delete_done => item_delete_done p
  | .item_delete_fail res => item_delete_fail p res
  | .item_clear => item_clear_click p
  | .item_search_done res => item_search_done p res
  | .item_search_fail res => item_search_fail p res

/-! ## The browser: what an element holds after `.append`

`$(sel).append(v)` is handed a string.  jQuery makes a text node of it when the
string contains neither `<` nor a character reference (its `rhtml` test), and
otherwise hands it to the HTML parser and inserts the nodes the parser builds.
The page record keeps the string; the functions below give the nodes.  The HTML
parser is modelled on two small languages only, and is `none` outside them: a
fragment of text and start tags of elements HTML does not define, and the table
markup the search continuations write. -/

/-- The double quote character. -/
def quote_char : Char := Char.ofNat 34

/-- A node of the document: a text node, or an element with its attributes and
children. -/
inductive Node where
  | text (data : String)
  | element (name : String) (attributes : List (String × String)) (children : List Node)
  deriving Repr

/-- A character the HTML tokenizer passes on as text unchanged: not `<`, not
`&`, not NUL and not a carriage return. -/
def text_char (c : Char) : Bool :=
  !(c == '<' || c == '&' || c == Char.ofNat 0 || c == Char.ofNat 13)

/-- A character of the class `\w` of a JavaScript regular expression. -/
def is_word (c : Char) : Bool := c.isAlphanum || c == '_'

/-- Matches `\w*;` at the start of the input. -/
def entity_tail : List Char → Bool
  | [] => false
  | c :: s => if c = ';' then true else if is_word c then entity_tail s else false

/-- Matches `#?\w+;` at the start of the input. -/
def entity_body : List Char → Bool
  | [] => false
  | c :: s =>
    (is_word c && entity_tail s) ||
      (c == '#' && match s with
        | [] => false
        | d :: s1 => is_word d && entity_tail s1)

/-- The test of jQuery's `rhtml`, the regular expression `<|&#?\w+;`: the string
contains a `<` or a character reference. -/
def rhtml : List Char → Bool
  | [] => false
  | c :: s => c == '<' || (c == '&' && entity_body s) || rhtml s

/-- The element names HTML defines or its parser treats specially; the
fragment model leaves a start tag with one of these names alone. -/
def html_element_names : List String :=
  ["a", "abbr", "acronym", "address", "applet", "area", "article", "aside", "audio", "b",
   "base", "basefont", "bdi", "bdo", "bgsound", "big", "blink", "blockquote", "body", "br",
   "button", "canvas", "caption", "center", "cite", "code", "col", "colgroup", "command",
   "content", "data", "datalist", "dd", "del", "details", "dfn", "dialog", "dir", "div", "dl",
   "dt", "element", "em", "embed", "fieldset", "figcaption", "figure", "font", "footer",
   "form", "frame", "frameset", "h1", "h2", "h3", "h4", "h5", "h6", "head", "header",
   "hgroup", "hr", "html", "i", "iframe", "image", "img", "input", "ins", "isindex", "kbd",
   "keygen", "label", "legend", "li", "link", "listing", "main", "map", "mark", "marquee",
   "math", "menu", "menuitem", "meta", "meter", "multicol", "nav", "nextid", "nobr",
   "noembed", "noframes", "noscript", "object", "ol", "optgroup", "option", "output", "p",
   "param", "picture", "plaintext", "pre", "progress", "q", "rb", "rp", "rt", "rtc", "ruby",
   "s", "samp", "script", "search", "section", "select", "shadow", "slot", "small", "source",
   "spacer", "span", "strike", "strong", "style", "sub", "summary", "sup", "svg", "table",
   "tbody", "td", "template", "textarea", "tfoot", "th", "thead", "time", "title", "tr",
   "track", "tt", "u", "ul", "var", "video", "wbr", "xmp"]

/-- A character of a tag name the fragment model reads: a lower-case letter or
a digit. -/
def tag_name_char (c : Char) : Bool := c.isLower || c.isDigit

/-- A character the tokenizer appends unchanged to an attribute name: not
white space, `/`, `>`, `=`, NUL, `<`, `&` or an upper-case letter. -/
def attr_name_char (c : Char) : Bool :=
  !(c == ' ' || c == Char.ofNat 9 || c == Char.ofNat 10 || c == Char.ofNat 12 ||
    c == Char.ofNat 13 || c == '/' || c == '>' || c == '=' || c == Char.ofNat 0 ||
    c == '<' || c == '&' || c.isUpper)

/-- The longest run of characters satisfying `ok` at the start of the input,
and what follows it. -/
def read_while (ok : Char → Bool) : List Char → List Char × List Char
  | [] => ([], [])
  | c :: s =>
    if ok c then ((read_while ok s).1.cons c, (read_while ok s).2)
    else ([], c :: s)

/-- The rest of a start tag after its name: attributes without a value, each
after one space, up to the closing `>`.  A repeated name is not modelled. -/
def read_bare_attrs : Nat → List Char → Option (List (String × String) × List Char)
  | 0, _ => none
  | _ + 1, [] => none
  | fuel + 1, c :: s =>
    if c = '>' then some ([], s)
    else if c = ' ' then
      match read_while attr_name_char s with
      | (name, s1) =>
        if name = [] then none
        else
          match read_bare_attrs fuel s1 with
          | none => none
          | some (attrs, s2) =>
            if attrs.any (fun a => a.1 == String.mk name) then none
            else some ((String.mk name, "") :: attrs, s2)
    else none

/-- The nodes the HTML parser builds, in a `div`, from text and start tags of
elements HTML does not define.  Such an element is an ordinary element; with no
end tag in the input, everything after its start tag ends up inside it. -/
def parse_fragment : Nat → List Char → Option (List Node)
  | 0, _ => none
  | _ + 1, [] => some []
  | fuel + 1, c :: s =>
    if c = '<' then
      match read_while tag_name_char s with
      | (name, s1) =>
        if name = [] then none
        else if !(name.head?.any Char.isLower) then none
        else if html_element_names.contains (String.mk name) then none
        else
          match read_bare_attrs (fuel + 1) s1 with
          | none => none
          | some (attrs, s2) =>
            match parse_fragment fuel s2 with
            | none => none
            | some children => some [Node.element (String.mk name) attrs children]
    else
      match read_while text_char (c :: s) with
      | (text, s1) =>
        if text = [] then none
        else
          match parse_fragment fuel s1 with
          | none => none
          | some nodes => some (Node.text (String.mk text) :: nodes)

/-- The children of an emptied element after `.append(source)`: nothing for
the empty string, one text node when `rhtml` does not match, and otherwise the
nodes the HTML parser builds from the string. -/
def rendered (source : String) : Option (List Node) :=
  if source = "" then some []
  else if rhtml source.data then parse_fragment (source.length + 1) source.data
  else some [Node.text source]

/-- The children of `#flash_message`. -/
def flash_nodes (p : Page) : Option (List Node) :=
  rendered p.flash_message

/-- A `th` or `td` element holding text only. -/
structure Cell where
  attributes : List (String × String)
  text : String
  deriving DecidableEq, Repr

/-- A `tr` element and its cells. -/
structure Row where
  attributes : List (String × String)
  cells : List Cell
  deriving DecidableEq, Repr

/-- A `table` element: the rows of its `thead` and of its `tbody`. -/
structure Table where
  attributes : List (String × String)
  head : List Row
  body : List Row
  deriving DecidableEq, Repr

/-- A character the tokenizer appends unchanged to a double-quoted attribute
value: not the quote, `&`, `<`, `>`, NUL or a carriage return. -/
def value_char (c : Char) : Bool :=
  !(c == quote_char || c == '&' || c == '<' || c == '>' || c == Char.ofNat 0 ||
    c == Char.ofNat 13)

/-- A character of an attribute name the table model reads: a lower-case
letter. -/
def name_char (c : Char) : Bool := c.isLower

/-- The input after the literal `l`, when it starts with `l`. -/
def expect : List Char → List Char → Option (List Char)
  | [], s => some s
  | _ :: _, [] => none
  | a :: l, c :: s => if a = c then expect l s else none

/-- The text of a cell: the characters before the next `<`. -/
def read_text : List Char → Option (List Char × List Char)
  | [] => none
  | c :: s =>
    if c = '<' then some ([], c :: s)
    else if text_char c then
      match read_text s with
      | some (t, rest) => some (c :: t, rest)
      | none => none
    else none

/-- An attribute name: the characters before the next `=`, which is consumed. -/
def read_name : List Char → Option (List Char × List Char)
  | [] => none
  | c :: s =>
    if c = '=' then some ([], s)
    else if name_char c then
      match read_name s with
      | some (n, rest) => some (c :: n, rest)
      | none => none
    else none

/-- An attribute value: the characters before the closing quote, which is
consumed. -/
def read_value : List Char → Option (List Char × List Char)
  | [] => none
  | c :: s =>
    if c = quote_char then some ([], s)
    else if value_char c then
      match read_value s with
      | some (v, rest) => some (c :: v, rest)
      | none => none
    else none

/-- The rest of a start tag after its name: attributes `name="value"`, each
after one space, up to the closing `>`.  A repeated name is not modelled. -/
def parse_attrs : Nat → List Char → Option (List (String × String) × List Char)
  | 0, _ => none
  | _ + 1, [] => none
  | fuel + 1, c :: s =>
    if c = '>' then some ([], s)
    else if c = ' ' then
      match read_name s with
      | none => none
      | some (name, s1) =>
        if name = [] then none
        else
          match expect [quote_char] s1 with
          | none => none
          | some s2 =>
            match read_value s2 with
            | none => none
            | some (value, s3) =>
              match parse_attrs fuel s3 with
              | none => none
              | some (attrs, s4) =>
                if attrs.any (fun a => a.1 == String.mk name) then none
                else some ((String.mk name, String.mk value) :: attrs, s4)
    else none

/-- A run of cells `<tag ...>text</tag>`, up to the first input that does not
start with `<tag`. -/
def parse_cells (tag : List Char) : Nat → List Char → Option (List Cell × List Char)
  | 0, _ => none
  | fuel + 1, s =>
    match expect ('<' :: tag) s with
    | none => some ([], s)
    | some s1 =>
      match parse_attrs (fuel + 1) s1 with
      | none => none
      | some (attrs, s2) =>
        match read_text s2 with
        | none => none
        | some (text, s3) =>
          match expect ('<' :: '/' :: tag ++ ['>']) s3 with
          | none => none
          | some s4 =>
            match parse_cells tag fuel s4 with
            | none => none
            | some (cells, s5) =>
              some ({ attributes := attrs, text := String.mk text } :: cells, s5)

/-- A run of rows `<tr ...>cells</tr>`, up to the first input that does not
start with `<tr`. -/
def parse_rows (tag : List Char) : Nat → List Char → Option (List Row × List Char)
  | 0, _ => none
  | fuel + 1, s =>
    match expect ['<', 't', 'r'] s with
    | none => some ([], s)
    | some s1 =>
      match parse_attrs (fuel + 1) s1 with
      | none => none
      | some (attrs, s2) =>
        match parse_cells tag (fuel + 1) s2 with
        | none => none
        | some (cells, s3) =>
          match expect ['<', '/', 't', 'r', '>'] s3 with
          | none => none
          | some s4 =>
            match parse_rows tag fuel s4 with
            | none => none
            | some (rows, s5) => some ({ attributes := attrs, cells := cells } :: rows, s5)

/-- The table the HTML parser builds from markup of the shape
`<table ...><thead>` rows of `th` cells `</thead><tbody>` rows of `td` cells
`</tbody></table>`. -/
def parse_table (fuel : Nat) (s : List Char) : Option Table :=
  match expect ['<', 't', 'a', 'b', 'l', 'e'] s with
  | none => none
  | some s1 =>
    match parse_attrs fuel s1 with
    | none => none
    | some (attrs, s2) =>
      match expect ['<', 't', 'h', 'e', 'a', 'd', '>'] s2 with
      | none => none
      | some s3 =>
        match parse_rows ['t', 'h'] fuel s3 with
        | none => none
        | some (head, s4) =>
          match expect ['<', '/', 't', 'h', 'e', 'a', 'd', '>', '<', 't', 'b', 'o', 'd', 'y',
              '>'] s4 with
          | none => none
          | some s5 =>
            match parse_rows ['t', 'd'] fuel s5 with
            | none => none
            | some (body, s6) =>
              match expect ['<', '/', 't', 'b', 'o', 'd', 'y', '>', '<', '/', 't', 'a', 'b',
                  'l', 'e', '>'] s6 with
              | none => none
              | some s7 =>
                if s7 = [] then some { attributes := attrs, head := head, body := body }
                else none

/-- The table a search-result region holds after `.append(markup)`. -/
def render_table (markup : String) : Option Table :=
  parse_table (markup.length + 1) markup.data

/-! ### Markup of a table

The inverse direction, used to show that the parser reads the markup of a
well-formed table back as that table. -/

/-- Markup of one attribute, with its leading space. -/
def attr_markup (a : String × String) : List Char :=
  ' ' :: (a.1.data ++ '=' :: quote_char :: (a.2.data ++ [quote_char]))

/-- Markup of the attributes of a start tag. -/
def attrs_markup : List (String × String) → List Char
  | [] => []
  | a :: attrs => attr_markup a ++ attrs_markup attrs

/-- Markup of a cell with tag name `tag`. -/
def cell_markup (tag : List Char) (c : Cell) : List Char :=
  '<' :: tag ++ (attrs_markup c.attributes ++ '>' :: (c.text.data ++ ('<' :: '/' :: tag ++ ['>'])))

/-- Markup of a run of cells. -/
def cells_markup (tag : List Char) : List Cell → List Char
  | [] => []
  | c :: cells => cell_markup tag c ++ cells_markup tag cells

/-- Markup of a row whose cells have tag name `tag`. -/
def row_markup (tag : List Char) (r : Row) : List Char :=
  ['<', 't', 'r'] ++ (attrs_markup r.attributes ++ '>' :: (cells_markup tag r.cells ++
    ['<', '/', 't', 'r', '>']))

/-- Markup of a run of rows. -/
def rows_markup (tag : List Char) : List Row → List Char
  | [] => []
  | r :: rows => row_markup tag r ++ rows_markup tag rows

/-- Markup of a table. -/
def table_markup (t : Table) : List Char :=
  ['<', 't', 'a', 'b', 'l', 'e'] ++ (attrs_markup t.attributes ++ '>' ::
    (['<', 't', 'h', 'e', 'a', 'd', '>'] ++ (rows_markup ['t', 'h'] t.head ++
      (['<', '/', 't', 'h', 'e', 'a', 'd', '>', '<', 't', 'b', 'o', 'd', 'y', '>'] ++
        (rows_markup ['t', 'd'] t.body ++
          ['<', '/', 't', 'b', 'o', 'd', 'y', '>', '<', '/', 't', 'a', 'b', 'l', 'e', '>'])))))

/-- Attributes the table model reads: non-empty lower-case names, no name
twice, values of `value_char` characters. -/
def attrs_ok : List (String × String) → Bool
  | [] => true
  | a :: attrs =>
    a.1.data != [] && a.1.data.all name_char && a.2.data.all value_char &&
      !(attrs.any fun b => b.1 == a.1) && attrs_ok attrs

/-- A cell the table model reads. -/
def cell_ok (c : Cell) : Bool := attrs_ok c.attributes && c.text.data.all text_char

/-- A row the table model reads. -/
def row_ok (r : Row) : Bool := attrs_ok r.attributes && r.cells.all cell_ok

/-- A table the table model reads. -/
def table_ok (t : Table) : Bool :=
  attrs_ok t.attributes && t.head.all row_ok && t.body.all row_ok

/-! ## Vocabulary of the specification -/

/-- The order form with every field blank. -/
def blank_order_form : OrderForm :=
  { id := "", amount := "", status := "", address := "", customer_id := "", date := "" }

/-- The item form with every field blank. -/
def blank_item_form : ItemForm :=
  { order_id := "", product_id := "", price := "", quantity := "" }

/-- The order form whose every field holds the same-named field of `res`, as
the text an input stores for that value. -/
def order_form_of (res : Order) : OrderForm :=
  { id := val_text res.id, amount := val_text res.amount, status := val_text res.status,
    address := val_text res.address, customer_id := val_text res.customer_id,
    date := val_text res.date }

/-- The item form whose every field holds the same-named field of `res`, as
the text an input stores for that value. -/
def item_form_of (res : Item) : ItemForm :=
  { order_id := val_text res.order_id, product_id := val_text res.product_id,
    price := val_text res.price, quantity := val_text res.quantity }

/-- An error response whose JSON body carries the message `m`. -/
def error_with_message (m : String) : Failure :=
  { responseJSON := some { message := JsVal.str m } }

/-- The property names of a request body, in order; none for an empty body. -/
def property_names : Body → List String
  | .empty => []
  | .json properties => properties.map Prod.fst

/-- The order objects of the response an event delivers. -/
def order_responses : Event → List Order
  | .order_create_done res => [res]
  | .order_update_done res => [res]
  | .order_retrieve_done res => [res]
  | .order_cancel_done res => [res]
  | .order_search_done res => res
  | _ => []

/-- The item objects of the response an event delivers. -/
def item_responses : Event → List Item
  | .item_create_done res => [res]
  | .item_update_done res => [res]
  | .item_retrieve_done res => [res]
  | .item_search_done res => res
  | _ => []

/-- The label the specification gives a status code: 0 Cancelled, 1 Preparing,
2 Delivering, 3 Delivered, and the text `undefined` for every other code. -/
def status_label (n : Int) : String :=
  if n = 0 then "Cancelled"
  else if n = 1 then "Preparing"
  else if n = 2 then "Delivering"
  else if n = 3 then "Delivered"
  else "undefined"

/-- The markup of a table row with id `row_i` and one `td` element around each
text of `cells`. -/
def table_row (i : Nat) (cells : List String) : String :=
  "<tr id=\"row_" ++ toString i ++ "\">"
    ++ String.join (cells.map fun c => "<td>" ++ c ++ "</td>") ++ "</tr>"

/-- The texts the row template of an order writes between its six pairs of
`td` tags, in column order.  They are markup: what a cell shows is read off
`render_table`. -/
def order_cells (order : Order) : List String :=
  [template_text order.id, template_text order.amount,
   template_text (status_map_get order.status), template_text order.address,
   template_text order.customer_id, template_text order.date]

/-- The texts the row template of an item writes between its four pairs of
`td` tags, in column order.  They are markup: what a cell shows is read off
`render_table`. -/
def item_cells (item : Item) : List String :=
  [template_text item.order_id, template_text item.product_id, template_text item.price,
   template_text item.quantity]

/-- The markup of the rows of the order table for the records `res`, numbered
from `i`. -/
def order_rows : Nat → List Order → List String
  | _, [] => []
  | i, order :: rest => table_row i (order_cells order) :: order_rows (i + 1) rest

/-- The markup of the rows of the item table for the records `res`, numbered
from `i`. -/
def item_rows : Nat → List Item → List String
  | _, [] => []
  | i, item :: rest => table_row i (item_cells item) :: item_rows (i + 1) rest

/-- The values of the six order form fields, in the column order of the table. -/
def order_form_values (f : OrderForm) : List String :=
  [f.id, f.amount, f.status, f.address, f.customer_id, f.date]

/-- The values of the four item form fields, in the column order of the table. -/
def item_form_values (f : ItemForm) : List String :=
  [f.order_id, f.product_id, f.price, f.quantity]

/-- A response value that is a string or a number, as opposed to `null` or an
absent field. -/
def is_text_or_number : JsVal → Bool
  | .num _ => true
  | .str _ => true
  | _ => false

/-- A page with both forms filled, for the worked examples. -/
def sample_page : Page :=
  { order := { id := "5", amount := "3.50", status := "2", address := "9 Elm",
               customer_id := "4", date := "2023-12-31" },
    item := { order_id := "9", product_id := "3", price := "2.5", quantity := "4" },
    flash_message := "old message", order_search_results := "", item_search_results := "" }

/-- An order record as the service returns it, with status code 1. -/
def sample_order : Order :=
  { id := JsVal.num 1, amount := JsVal.num 10, status := JsVal.num 1,
    address := JsVal.str "1 Main", customer_id := JsVal.num 7,
    date := JsVal.str "2024-01-01" }

/-- An item record with every field a number. -/
def sample_item : Item :=
  { order_id := JsVal.num 1, product_id := JsVal.num 2, price := JsVal.num 3,
    quantity := JsVal.num 4 }

/-- An item record whose price is `null`. -/
def sample_item_null_price : Item :=
  { order_id := JsVal.num 1, product_id := JsVal.num 2, price := JsVal.null,
    quantity := JsVal.num 4 }

/-- The children of an element that shows the text `m` and nothing else: one
text node, or none when `m` is empty. -/
def text_only (m : String) : List Node :=
  if m = "" then [] else [Node.text m]

/-- A text without any character that means something to the HTML tokenizer:
no `<`, no `&`, no NUL and no carriage return. -/
def plain_text (s : String) : Bool := s.data.all text_char

/-- A response value that is a string. -/
def is_string : JsVal → Bool
  | .str _ => true
  | _ => false

/-- A response value JavaScript holds and prints exactly: anything but a number
beyond the safe integers, those of magnitude at most 2^53 - 1. -/
def is_exact : JsVal → Bool
  | .num n => decide (-9007199254740991 ≤ n ∧ n ≤ 9007199254740991)
  | _ => true

/-- An order record whose row the browser shows as the template writes it: its
numbers are safe integers, its status is not a string (it is a number, `null`
or absent), and every text written into a cell is plain. -/
def order_plain (order : Order) : Bool :=
  [order.id, order.amount, order.status, order.address, order.customer_id,
    order.date].all is_exact &&
  !is_string order.status && (order_cells order).all plain_text

/-- An item record whose row the browser shows as the template writes it: its
numbers are safe integers and every text written into a cell is plain. -/
def item_plain (item : Item) : Bool :=
  [item.order_id, item.product_id, item.price, item.quantity].all is_exact &&
  (item_cells item).all plain_text

/-- The body row with id `row_i` whose cells show the given texts. -/
def body_row (i : Nat) (cells : List String) : Row :=
  { attributes := [("id", "row_" ++ toString i)],
    cells := cells.map fun t => { attributes := [], text := t } }

/-- The header row whose cells show the given titles. -/
def header_row (titles : List String) : Row :=
  { attributes := [],
    cells := titles.map fun t => { attributes := [("class", "col-md-2")], text := t } }

/-- The texts shown in the cells of a row. -/
def cell_texts (r : Row) : List String := r.cells.map Cell.text

/-- One body row for each order of `res`, numbered from `i`, showing the texts
its row template writes. -/
def order_body : Nat → List Order → List Row
  | _, [] => []
  | i, order :: rest => body_row i (order_cells order) :: order_body (i + 1) rest

/-- One body row for each item of `res`, numbered from `i`, showing the texts
its row template writes. -/
def item_body : Nat → List Item → List Row
  | _, [] => []
  | i, item :: rest => body_row i (item_cells item) :: item_body (i + 1) rest

/-- The order table with one body row for each record of `res`. -/
def order_table (res : List Order) : Table :=
  { attributes := [("class", "table table-striped"), ("cellpadding", "10")],
    head := [header_row ["ID", "Amount", "Status", "Address", "Customer ID", "Date"]],
    body := order_body 0 res }

/-- The item table with one body row for each record of `res`. -/
def item_table (res : List Item) : Table :=
  { attributes := [("class", "table table-striped"), ("cellpadding", "10")],
    head := [header_row ["Order ID", "Product ID", "Price", "Quantity"]],
    body := item_body 0 res }

/-- The sample order with row markup in its address. -/
def sample_order_with_markup : Order :=
  { sample_order with address := JsVal.str "</td></tr><tr id=\"row_1\"><td>x" }

/-- A validation message of the service that names a Python type. -/
def sample_message_with_markup : String :=
  "Invalid type for integer [status]: <class 'str'>"

/-- The texts shown in the cells of each body row of the table the browser
builds from `markup`. -/
def rendered_texts (markup : String) : Option (List (List String)) :=
  (render_table markup).map fun t => t.body.map cell_texts

set_option maxRecDepth 100000

/-! ## Basic facts about the utility functions -/

theorem clear_order_form_data_order (p : Page) :
    (clear_order_form_data p).order = blank_order_form := rfl

theorem clear_item_form_data_item (p : Page) :
    (clear_item_form_data p).item = blank_item_form := rfl

theorem flash_message_text (p : Page) (m : JsVal) :
    (flash_message p m).flash_message = appended_source m := by
  simp [flash_message, empty_flash]

theorem flash_error_message_order (p : Page) (res : Failure) :
    (flash_error_message p res).order = p.order := by
  unfold flash_error_message
  cases res.responseJSON <;> rfl

theorem flash_error_message_item (p : Page) (res : Failure) :
    (flash_error_message p res).item = p.item := by
  unfold flash_error_message
  cases res.responseJSON <;> rfl

theorem flash_error_message_text (p : Page) (m : String) :
    (flash_error_message p (error_with_message m)).flash_message = m := by
  simp [flash_error_message, error_with_message, flash_message, empty_flash, appended_source]

/-! ## C1: order search query string -/

/-- C1: the query string of the order search handler is `<field>=<value>` for
the first non-empty field in the order status, address, date, customer_id, with
the value verbatim, and empty when all four are empty; the request is a GET on
`/orders?` followed by that query string. -/
theorem order_search_query_first_nonempty (p : Page) :
    (p.order.status ≠ "" →
      order_search_queryString p = "status=" ++ p.order.status) ∧
    (p.order.status = "" → p.order.address ≠ "" →
      order_search_queryString p = "address=" ++ p.order.address) ∧
    (p.order.status = "" → p.order.address = "" → p.order.date ≠ "" →
      order_search_queryString p = "date=" ++ p.order.date) ∧
    (p.order.status = "" → p.order.address = "" → p.order.date = "" →
      p.order.customer_id ≠ "" →
      order_search_queryString p = "customer_id=" ++ p.order.customer_id) ∧
    (p.order.status = "" → p.order.address = "" → p.order.date = "" →
      p.order.customer_id = "" → order_search_queryString p = "") ∧
    (order_search_click p).2 =
      { type := "GET", url := "/orders?" ++ order_search_queryString p,
        contentType := "application/json", data := Body.empty } := by
  refine ⟨?_, ?_, ?_, ?_, ?_, rfl⟩
  · intro h
    simp [order_search_queryString, truthy, h]
  · intro h1 h2
    simp [order_search_queryString, truthy, h1, h2]
  · intro h1 h2 h3
    simp [order_search_queryString, truthy, h1, h2, h3]
  · intro h1 h2 h3 h4
    simp [order_search_queryString, truthy, h1, h2, h3, h4]
  · intro h1 h2 h3 h4
    simp [order_search_queryString, truthy, h1, h2, h3, h4]

/-- The scenario of C1: with status "1" and address "X" both filled the query
string is exactly `status=1` and the request goes to `/orders?status=1`. -/
theorem order_search_query_first_nonempty_witness :
    order_search_queryString
        { order := { id := "", amount := "", status := "1", address := "X",
                     customer_id := "", date := "" },
          item := blank_item_form, flash_message := "", order_search_results := "",
          item_search_results := "" } = "status=1" ∧
    (order_search_click
        { order := { id := "", amount := "", status := "1", address := "X",
                     customer_id := "", date := "" },
          item := blank_item_form, flash_message := "", order_search_results := "",
          item_search_results := "" }).2.url = "/orders?status=1" :=
  ⟨(order_search_query_first_nonempty
      { order := { id := "", amount := "", status := "1", address := "X",
                   customer_id := "", date := "" },
        item := blank_item_form, flash_message := "", order_search_results := "",
        item_search_results := "" }).1 (by decide), by decide⟩

/-! ## C2: what a success continuation leaves on the form -/

/-- C2: after the success continuation of order create, update, retrieve or
cancel every one of the six order fields holds the same-named field of the
response, whatever the form held before, and after order delete all six are
blank; the flash text is "Success", "Order has been Cancelled!" and "Order has
been Deleted!" respectively.  Item create, update and retrieve do the same for
the four item fields and item delete blanks them. -/
theorem success_form_from_response (p : Page) (res : Order) (ires : Item) :
    ((order_create_done p res).order = order_form_of res ∧
      (order_create_done p res).flash_message = "Success") ∧
    ((order_update_done p res).order = order_form_of res ∧
      (order_update_done p res).flash_message = "Success") ∧
    ((order_retrieve_done p res).order = order_form_of res ∧
      (order_retrieve_done p res).flash_message = "Success") ∧
    ((order_cancel_done p res).order = order_form_of res ∧
      (order_cancel_done p res).flash_message = "Order has been Cancelled!") ∧
    ((order_delete_done p).order = blank_order_form ∧
      (order_delete_done p).flash_message = "Order has been Deleted!") ∧
    ((item_create_done p ires).item = item_form_of ires ∧
      (item_create_done p ires).flash_message = "Success") ∧
    ((item_update_done p ires).item = item_form_of ires ∧
      (item_update_done p ires).flash_message = "Success") ∧
    ((item_retrieve_done p ires).item = item_form_of ires ∧
      (item_retrieve_done p ires).flash_message = "Success") ∧
    ((item_delete_done p).item = blank_item_form ∧
      (item_delete_done p).flash_message = "Item has been Deleted!") := by
  refine ⟨⟨rfl, ?_⟩, ⟨rfl, ?_⟩, ⟨rfl, ?_⟩, ⟨rfl, ?_⟩, ⟨rfl, ?_⟩, ⟨rfl, ?_⟩, ⟨rfl, ?_⟩,
    ⟨rfl, ?_⟩, ⟨rfl, ?_⟩⟩ <;>
  simp [order_create_done, order_update_done, order_retrieve_done, order_cancel_done,
    order_delete_done, item_create_done, item_update_done, item_retrieve_done,
    item_delete_done, flash_message_text, appended_source]

/-- A create answered with an order whose id is 42 leaves the id field at "42",
whatever it held before. -/
theorem order_create_done_id_42 :
    (order_create_done
        { order := { id := "stale", amount := "10.00", status := "1", address := "1 Main",
                     customer_id := "7", date := "2024-01-01" },
          item := blank_item_form, flash_message := "", order_search_results := "",
          item_search_results := "" }
        { id := JsVal.num 42, amount := JsVal.num 10, status := JsVal.num 1,
          address := JsVal.str "1 Main", customer_id := JsVal.num 7,
          date := JsVal.str "2024-01-01" }).order =
      { id := "42", amount := "10", status := "1", address := "1 Main", customer_id := "7",
        date := "2024-01-01" } := by
  decide

/-! ## C3: what a failure continuation leaves on the form -/

/-- C3: the failure continuation of order retrieve leaves every order field
blank and that of item retrieve every item field blank, for every error
response; the failure continuation of every other operation leaves both forms
exactly as they were. -/
theorem failure_form_outcome (p : Page) (res : Failure) :
    (order_retrieve_fail p res).order = blank_order_form ∧
    (item_retrieve_fail p res).item = blank_item_form ∧
    ((order_create_fail p res).order = p.order ∧ (order_create_fail p res).item = p.item) ∧
    ((order_update_fail p res).order = p.order ∧ (order_update_fail p res).item = p.item) ∧
    ((order_delete_fail p res).order = p.order ∧ (order_delete_fail p res).item = p.item) ∧
    ((order_cancel_fail p res).order = p.order ∧ (order_cancel_fail p res).item = p.item) ∧
    ((order_search_fail p res).order = p.order ∧ (order_search_fail p res).item = p.item) ∧
    ((item_create_fail p res).order = p.order ∧ (item_create_fail p res).item = p.item) ∧
    ((item_update_fail p res).order = p.order ∧ (item_update_fail p res).item = p.item) ∧
    ((item_delete_fail p res).order = p.order ∧ (item_delete_fail p res).item = p.item) ∧
    ((item_search_fail p res).order = p.order ∧ (item_search_fail p res).item = p.item) := by
  refine ⟨?_, ?_, ⟨?_, ?_⟩, ⟨?_, ?_⟩, ⟨rfl, rfl⟩, ⟨rfl, rfl⟩, ⟨?_, ?_⟩, ⟨?_, ?_⟩, ⟨?_, ?_⟩,
    ⟨rfl, rfl⟩, ⟨?_, ?_⟩⟩
  · rw [order_retrieve_fail, flash_error_message_order, clear_order_form_data_order]
  · rw [item_retrieve_fail, flash_error_message_item, clear_item_form_data_item]
  all_goals
    first
    | exact flash_error_message_order p res
    | exact flash_error_message_item p res

/-! ## C6: which message a failure continuation shows -/

/-- A string without `<` and without a character reference is appended as
text. -/
theorem rendered_plain (m : String) (h : rhtml m.data = false) :
    rendered m = some (text_only m) := by
  unfold rendered text_only
  by_cases hm : m = ""
  · simp [hm]
  · simp [hm, h]

theorem flash_nodes_error_message (p : Page) (m : String) :
    flash_nodes (flash_error_message p (error_with_message m)) = rendered m := by
  unfold flash_nodes
  rw [flash_error_message_text]

theorem flash_nodes_fixed (p : Page) (m : String) (h : rendered m = some [Node.text m]) :
    flash_nodes (flash_message p (JsVal.str m)) = some [Node.text m] := by
  unfold flash_nodes
  rw [flash_message_text]
  exact h

/-- C6, as the code has it: for an error response whose message `m` holds no
`<` and no character reference, the failure continuations of create, update,
retrieve and search (order and item) leave in the flash area the text `m` and
nothing else, whatever it held before; those of order delete, order cancel and
item delete leave the text "Server error!" for every error response. -/
theorem failure_flash_text (p : Page) (m : String) (res : Failure) :
    (rhtml m.data = false →
      flash_nodes (order_create_fail p (error_with_message m)) = some (text_only m) ∧
      flash_nodes (order_update_fail p (error_with_message m)) = some (text_only m) ∧
      flash_nodes (order_retrieve_fail p (error_with_message m)) = some (text_only m) ∧
      flash_nodes (order_search_fail p (error_with_message m)) = some (text_only m) ∧
      flash_nodes (item_create_fail p (error_with_message m)) = some (text_only m) ∧
      flash_nodes (item_update_fail p (error_with_message m)) = some (text_only m) ∧
      flash_nodes (item_retrieve_fail p (error_with_message m)) = some (text_only m) ∧
      flash_nodes (item_search_fail p (error_with_message m)) = some (text_only m)) ∧
    (m ≠ "" → text_only m = [Node.text m]) ∧
    flash_nodes (order_delete_fail p res) = some [Node.text "Server error!"] ∧
    flash_nodes (order_cancel_fail p res) = some [Node.text "Server error!"] ∧
    flash_nodes (item_delete_fail p res) = some [Node.text "Server error!"] := by
  refine ⟨?_, ?_, flash_nodes_fixed p _ rfl, flash_nodes_fixed p _ rfl,
    flash_nodes_fixed p _ rfl⟩
  · intro h
    have hm := rendered_plain m h
    refine ⟨?_, ?_, ?_, ?_, ?_, ?_, ?_, ?_⟩ <;>
    simp only [order_create_fail, order_update_fail, order_retrieve_fail, order_search_fail,
      item_create_fail, item_update_fail, item_retrieve_fail, item_search_fail,
      flash_nodes_error_message, hm]
  · intro hm
    simp [text_only, hm]

/-- An instance of C6: a not-found message holds no `<` and no character
reference, and is shown as it is. -/
theorem failure_flash_text_witness :
    flash_nodes (order_retrieve_fail sample_page
        (error_with_message "404 Not Found: Order with id '7' was not found.")) =
      some [Node.text "404 Not Found: Order with id '7' was not found."] :=
  (failure_flash_text sample_page "404 Not Found: Order with id '7' was not found."
    (error_with_message "")).1 (by decide) |>.2.2.1

/-- Against C6 as stated: for the validation message
`Invalid type for integer [status]: <class 'str'>` the failure continuation of
order create leaves in the flash area the text before the `<` followed by an
empty element named `class`, not the message. -/
theorem flash_message_parsed_as_markup :
    flash_nodes (order_create_fail sample_page
        (error_with_message sample_message_with_markup)) =
      some [Node.text "Invalid type for integer [status]: ",
        Node.element "class" [("'str'", "")] []] ∧
    flash_nodes (order_create_fail sample_page
        (error_with_message sample_message_with_markup)) ≠
      some [Node.text sample_message_with_markup] := by
  have h : flash_nodes (order_create_fail sample_page
      (error_with_message sample_message_with_markup)) =
      some [Node.text "Invalid type for integer [status]: ",
        Node.element "class" [("'str'", "")] []] := by
    rfl
  refine ⟨h, ?_⟩
  rw [h]
  simp

/-! ## C7: target of item delete -/

/-- C7: the item delete handler issues DELETE `/orders/{o}/items/{p}` with `o`
the id field of the order form and `p` the product_id field of the item form;
changing the item form's own order_id field does not change the request. -/
theorem item_delete_target (p : Page) (other : String) :
    (item_delete_click p).2 =
      { type := "DELETE", url := "/orders/" ++ p.order.id ++ "/items/" ++ p.item.product_id,
        contentType := "application/json", data := Body.empty } ∧
    (item_delete_click { p with item := { p.item with order_id := other } }).2 =
      (item_delete_click p).2 :=
  ⟨rfl, rfl⟩

/-- The scenario of C7: order form id 5, item form order_id 9 and product_id 3
give the request path `/orders/5/items/3`. -/
theorem item_delete_scenario :
    (item_delete_click
        { order := { id := "5", amount := "", status := "", address := "",
                     customer_id := "", date := "" },
          item := { order_id := "9", product_id := "3", price := "", quantity := "" },
          flash_message := "", order_search_results := "",
          item_search_results := "" }).2.url = "/orders/5/items/3" := by
  decide

/-! ## C8: order write requests -/

/-- C8: order create issues POST `/orders` whose body has exactly the fields
amount, status, address, customer_id, date with the form's values and no id,
whatever the id field holds; order update issues PUT `/orders/{id}` whose body
has id and those five fields, the id of path and body being the form's id
field. -/
theorem order_write_requests (p : Page) :
    (order_create_click p).2 =
      { type := "POST", url := "/orders", contentType := "application/json",
        data := Body.json [("amount", p.order.amount), ("status", p.order.status),
          ("address", p.order.address), ("customer_id", p.order.customer_id),
          ("date", p.order.date)] } ∧
    property_names (order_create_click p).2.data =
      ["amount", "status", "address", "customer_id", "date"] ∧
    "id" ∉ property_names (order_create_click p).2.data ∧
    (order_update_click p).2 =
      { type := "PUT", url := "/orders/" ++ p.order.id, contentType := "application/json",
        data := Body.json [("id", p.order.id), ("amount", p.order.amount),
          ("status", p.order.status), ("address", p.order.address),
          ("customer_id", p.order.customer_id), ("date", p.order.date)] } ∧
    property_names (order_update_click p).2.data =
      ["id", "amount", "status", "address", "customer_id", "date"] := by
  refine ⟨rfl, rfl, ?_, rfl, rfl⟩
  simp [order_create_click, property_names]

/-- The scenario of C8: amount 10.00, status 1, address "1 Main", customer_id 7
and date 2024-01-01 on a form whose id field still holds "99" give POST
`/orders` with those five values and no id. -/
theorem order_create_scenario :
    (order_create_click
        { order := { id := "99", amount := "10.00", status := "1", address := "1 Main",
                     customer_id := "7", date := "2024-01-01" },
          item := blank_item_form, flash_message := "", order_search_results := "",
          item_search_results := "" }).2 =
      { type := "POST", url := "/orders", contentType := "application/json",
        data := Body.json [("amount", "10.00"), ("status", "1"), ("address", "1 Main"),
          ("customer_id", "7"), ("date", "2024-01-01")] } := by
  decide

/-! ## C9: item search request -/

/-- C9: the item search handler issues GET `/orders/{o}/items?{q}` with `o` the
id field of the order form and `q` equal to `price=<price>` when the price
field is non-empty, else `quantity=<quantity>` when the quantity field is
non-empty, else empty; changing the item form's own order_id field does not
change the request. -/
theorem item_search_request (p : Page) (other : String) :
    (item_search_click p).2 =
      { type := "GET",
        url := "/orders/" ++ p.order.id ++ "/items?" ++ item_search_queryString p,
        contentType := "application/json", data := Body.empty } ∧
    (p.item.price ≠ "" → item_search_queryString p = "price=" ++ p.item.price) ∧
    (p.item.price = "" → p.item.quantity ≠ "" →
      item_search_queryString p = "quantity=" ++ p.item.quantity) ∧
    (p.item.price = "" → p.item.quantity = "" → item_search_queryString p = "") ∧
    (item_search_click { p with item := { p.item with order_id := other } }).2 =
      (item_search_click p).2 := by
  refine ⟨rfl, ?_, ?_, ?_, rfl⟩
  · intro h
    simp [item_search_queryString, truthy, h]
  · intro h1 h2
    simp [item_search_queryString, truthy, h1, h2]
  · intro h1 h2
    simp [item_search_queryString, truthy, h1, h2]

/-- An instance of C9: with price "2.5" and quantity "4" both filled and order
form id "5", the request goes to `/orders/5/items?price=2.5`, whatever the item
form's order_id holds. -/
theorem item_search_request_witness :
    item_search_queryString
        { order := { id := "5", amount := "", status := "", address := "",
                     customer_id := "", date := "" },
          item := { order_id := "9", product_id := "3", price := "2.5", quantity := "4" },
          flash_message := "", order_search_results := "",
          item_search_results := "" } = "price=2.5" ∧
    (item_search_click
        { order := { id := "5", amount := "", status := "", address := "",
                     customer_id := "", date := "" },
          item := { order_id := "9", product_id := "3", price := "2.5", quantity := "4" },
          flash_message := "", order_search_results := "",
          item_search_results := "" }).2.url = "/orders/5/items?price=2.5" :=
  ⟨(item_search_request
      { order := { id := "5", amount := "", status := "", address := "",
                   customer_id := "", date := "" },
        item := { order_id := "9", product_id := "3", price := "2.5", quantity := "4" },
        flash_message := "", order_search_results := "",
        item_search_results := "" } "").2.1 (by decide), by decide⟩

/-! ## Decimal text of a status code -/

theorem toDigitsCore_length_pos (fuel n : Nat) (ds : List Char) :
    1 ≤ (Nat.toDigitsCore 10 (fuel + 1) n ds).length := by
  induction ds with
  | nil =>
    simp only [Nat.toDigitsCore]
    split
    · simp
    · rw [Nat.toDigitsCore_lens_eq]; omega
  | cons c tl _ =>
    rw [Nat.toDigitsCore_lens_eq]; omega

theorem nat_repr_length_pos (m : Nat) : 1 ≤ (Nat.repr m).length := by
  simp only [Nat.repr, Nat.toDigits, String.length, List.asString]
  exact toDigitsCore_length_pos m m []

theorem nat_repr_length_two (m : Nat) (h : 10 ≤ m) : 2 ≤ (Nat.repr m).length := by
  obtain ⟨k, rfl⟩ : ∃ k, m = k + 1 := ⟨m - 1, by omega⟩
  simp only [Nat.repr, Nat.toDigits, String.length, List.asString]
  have hdiv : (k + 1) / 10 ≠ 0 := by omega
  rw [Nat.toDigitsCore]
  simp only [hdiv, if_false]
  rw [Nat.toDigitsCore_lens_eq]
  have := toDigitsCore_length_pos k ((k + 1) / 10) []
  omega

/-- A negative integer and an integer of at least 10 print with two or more
characters. -/
theorem int_toString_length_two (n : Int) (h : n < 0 ∨ 10 ≤ n) :
    2 ≤ (toString n).length := by
  cases n with
  | ofNat m =>
    have hm : 10 ≤ m := by
      rcases h with h | h
      · have h2 : (m : Int) < 0 := h
        omega
      · have h2 : (10 : Int) ≤ (m : Int) := h
        omega
    exact nat_repr_length_two m hm
  | negSucc m =>
    show 2 ≤ ("-" ++ Nat.repr (m + 1)).length
    rw [String.length_append]
    have := nat_repr_length_pos (m + 1)
    have h1 : ("-" : String).length = 1 := by decide
    omega

/-- No integer other than 0, 1, 2, 3 prints as one of the keys of `status_map`. -/
theorem int_toString_not_key (n : Int) (h0 : n ≠ 0) (h1 : n ≠ 1) (h2 : n ≠ 2) (h3 : n ≠ 3) :
    toString n ≠ "0" ∧ toString n ≠ "1" ∧ toString n ≠ "2" ∧ toString n ≠ "3" := by
  by_cases hr : n < 0 ∨ 10 ≤ n
  · have hl := int_toString_length_two n hr
    refine ⟨?_, ?_, ?_, ?_⟩ <;>
    · intro heq
      rw [heq] at hl
      revert hl
      decide
  · have hlo : 0 ≤ n := by omega
    have hhi : n < 10 := by omega
    interval_cases n <;> first | contradiction | decide

/-- An integer code other than 0, 1, 2, 3 names no property of `status_map`. -/
theorem status_map_get_other (n : Int) (h0 : n ≠ 0) (h1 : n ≠ 1) (h2 : n ≠ 2) (h3 : n ≠ 3) :
    status_map_get (JsVal.num n) = JsVal.undefined := by
  obtain ⟨k0, k1, k2, k3⟩ := int_toString_not_key n h0 h1 h2 h3
  have e0 : (toString n == "0") = false := beq_eq_false_iff_ne.mpr k0
  have e1 : (toString n == "1") = false := beq_eq_false_iff_ne.mpr k1
  have e2 : (toString n == "2") = false := beq_eq_false_iff_ne.mpr k2
  have e3 : (toString n == "3") = false := beq_eq_false_iff_ne.mpr k3
  simp only [status_map_get, status_map, template_text, List.lookup, e0, e1, e2, e3]

/-- The text of the lookup in `status_map` for an integer code is the label the
specification gives that code. -/
theorem status_map_get_num (n : Int) :
    template_text (status_map_get (JsVal.num n)) = status_label n := by
  by_cases h0 : n = 0
  · subst h0; decide
  by_cases h1 : n = 1
  · subst h1; decide
  by_cases h2 : n = 2
  · subst h2; decide
  by_cases h3 : n = 3
  · subst h3; decide
  rw [status_map_get_other n h0 h1 h2 h3]
  simp only [template_text, status_label, h0, h1, h2, h3, if_false]

/-! ## The search loops -/

theorem foldl_append_acc (acc : String) (l : List String) :
    l.foldl (fun r s => r ++ s) acc = acc ++ l.foldl (fun r s => r ++ s) "" := by
  induction l generalizing acc with
  | nil => simp
  | cons a l ih =>
    simp only [List.foldl_cons]
    rw [ih (acc ++ a), ih ("" ++ a)]
    simp [String.append_assoc]

theorem join_cons (a : String) (l : List String) :
    String.join (a :: l) = a ++ String.join l := by
  simp only [String.join, List.foldl_cons]
  rw [foldl_append_acc]
  simp

theorem join_nil : String.join [] = "" := rfl

/-- The row template of the order table is the row of the six cell texts. -/
theorem order_row_eq (i : Nat) (order : Order) :
    order_row i order = table_row i (order_cells order) := by
  have e1 : ("\"><td>" : String) = "\">" ++ "<td>" := by decide
  have e2 : ("</td><td>" : String) = "</td>" ++ "<td>" := by decide
  have e3 : ("</td></tr>" : String) = "</td>" ++ "</tr>" := by decide
  simp only [order_row, table_row, order_cells, List.map, join_cons, join_nil, e1, e2, e3,
    String.append_assoc, String.append_empty]

/-- The row template of the item table is the row of the four cell texts. -/
theorem item_row_eq (i : Nat) (item : Item) :
    item_row i item = table_row i (item_cells item) := by
  have e1 : ("\"><td>" : String) = "\">" ++ "<td>" := by decide
  have e2 : ("</td><td>" : String) = "</td>" ++ "<td>" := by decide
  have e3 : ("</td></tr>" : String) = "</td>" ++ "</tr>" := by decide
  simp only [item_row, table_row, item_cells, List.map, join_cons, join_nil, e1, e2, e3,
    String.append_assoc, String.append_empty]

theorem order_search_loop_table (res : List Order) :
    ∀ (i : Nat) (table : String) (first_order : Option Order),
      (order_search_loop i res table first_order).1 = table ++ String.join (order_rows i res) := by
  induction res with
  | nil => intro i table first_order; simp [order_search_loop, order_rows, join_nil]
  | cons order rest ih =>
    intro i table first_order
    simp only [order_search_loop, order_rows]
    rw [ih, join_cons, order_row_eq, String.append_assoc]

theorem order_search_loop_first (res : List Order) :
    ∀ (i : Nat) (table : String) (first_order : Option Order),
      (order_search_loop (i + 1) res table first_order).2 = first_order := by
  induction res with
  | nil => intro i table first_order; rfl
  | cons order rest ih =>
    intro i table first_order
    simp only [order_search_loop]
    rw [ih]
    simp

theorem order_search_table_eq (res : List Order) :
    order_search_table res =
      (order_table_head ++ String.join (order_rows 0 res) ++ "</tbody></table>", res.head?) := by
  cases res with
  | nil => simp [order_search_table, order_search_loop, order_rows, join_nil]
  | cons order rest =>
    have h1 := order_search_loop_table rest 1 (order_table_head ++ order_row 0 order) (some order)
    have h2 := order_search_loop_first rest 0 (order_table_head ++ order_row 0 order) (some order)
    simp only [order_search_table, order_search_loop, order_rows, join_cons, List.head?_cons]
    simp only [Nat.zero_add, beq_self_eq_true, if_true] at h1 h2 ⊢
    rw [Prod.mk.injEq]
    exact ⟨by rw [h1, order_row_eq]; simp only [String.append_assoc], h2⟩

theorem item_search_loop_table (res : List Item) :
    ∀ (i : Nat) (table : String) (first_item : Option Item),
      (item_search_loop i res table first_item).1 = table ++ String.join (item_rows i res) := by
  induction res with
  | nil => intro i table first_item; simp [item_search_loop, item_rows, join_nil]
  | cons item rest ih =>
    intro i table first_item
    simp only [item_search_loop, item_rows]
    rw [ih, join_cons, item_row_eq, String.append_assoc]

theorem item_search_loop_first (res : List Item) :
    ∀ (i : Nat) (table : String) (first_item : Option Item),
      (item_search_loop (i + 1) res table first_item).2 = first_item := by
  induction res with
  | nil => intro i table first_item; rfl
  | cons item rest ih =>
    intro i table first_item
    simp only [item_search_loop]
    rw [ih]
    simp

theorem item_search_table_eq (res : List Item) :
    item_search_table res =
      (item_table_head ++ String.join (item_rows 0 res) ++ "</tbody></table>", res.head?) := by
  cases res with
  | nil => simp [item_search_table, item_search_loop, item_rows, join_nil]
  | cons item rest =>
    have h1 := item_search_loop_table rest 1 (item_table_head ++ item_row 0 item) (some item)
    have h2 := item_search_loop_first rest 0 (item_table_head ++ item_row 0 item) (some item)
    simp only [item_search_table, item_search_loop, item_rows, join_cons, List.head?_cons]
    simp only [Nat.zero_add, beq_self_eq_true, if_true] at h1 h2 ⊢
    rw [Prod.mk.injEq]
    exact ⟨by rw [h1, item_row_eq]; simp only [String.append_assoc], h2⟩

theorem order_search_done_results (p : Page) (res : List Order) :
    (order_search_done p res).order_search_results =
      order_table_head ++ String.join (order_rows 0 res) ++ "</tbody></table>" := by
  unfold order_search_done
  rw [order_search_table_eq]
  cases res <;> simp [flash_message, empty_flash, update_order_form_data]

theorem order_search_done_nil (p : Page) :
    (order_search_done p []).order = p.order ∧ (order_search_done p []).item = p.item := by
  unfold order_search_done
  rw [order_search_table_eq]
  exact ⟨rfl, rfl⟩

theorem order_search_done_cons (p : Page) (order : Order) (rest : List Order) :
    (order_search_done p (order :: rest)).order = order_form_of order ∧
    (order_search_done p (order :: rest)).item = p.item := by
  unfold order_search_done
  rw [order_search_table_eq]
  exact ⟨rfl, rfl⟩

theorem item_search_done_results (p : Page) (res : List Item) :
    (item_search_done p res).item_search_results =
      item_table_head ++ String.join (item_rows 0 res) ++ "</tbody></table>" := by
  unfold item_search_done
  rw [item_search_table_eq]
  cases res <;> simp [flash_message, empty_flash, update_item_form_data]

theorem item_search_done_nil (p : Page) :
    (item_search_done p []).item = p.item ∧ (item_search_done p []).order = p.order := by
  unfold item_search_done
  rw [item_search_table_eq]
  exact ⟨rfl, rfl⟩

theorem item_search_done_cons (p : Page) (item : Item) (rest : List Item) :
    (item_search_done p (item :: rest)).item = item_form_of item ∧
    (item_search_done p (item :: rest)).order = p.order := by
  unfold item_search_done
  rw [item_search_table_eq]
  exact ⟨rfl, rfl⟩

/-- A string or number prints the same in a table cell and in a form field. -/
theorem template_text_eq_val_text (v : JsVal) (h : is_text_or_number v = true) :
    template_text v = val_text v := by
  cases v <;> simp_all [is_text_or_number, template_text, val_text]

/-! ## C10: status labels in the order table -/

/-- C10: in a row of the order search table the status cell is the lookup of
the record's status in `status_map`; for the codes 0, 1, 2, 3 that is
Cancelled, Preparing, Delivering, Delivered, and for every other integer code
the lookup is `undefined`, shown as the text "undefined", which is none of the
four labels. -/
theorem status_cell_label (i : Nat) (id amount address customer_id date : JsVal) (n : Int) :
    order_row i { id := id, amount := amount, status := JsVal.num n, address := address,
                  customer_id := customer_id, date := date } =
      table_row i [template_text id, template_text amount, status_label n,
        template_text address, template_text customer_id, template_text date] ∧
    status_map_get (JsVal.num 0) = JsVal.str "Cancelled" ∧
    status_map_get (JsVal.num 1) = JsVal.str "Preparing" ∧
    status_map_get (JsVal.num 2) = JsVal.str "Delivering" ∧
    status_map_get (JsVal.num 3) = JsVal.str "Delivered" ∧
    template_text (status_map_get (JsVal.num n)) = status_label n ∧
    (n ≠ 0 → n ≠ 1 → n ≠ 2 → n ≠ 3 →
      status_map_get (JsVal.num n) = JsVal.undefined ∧ status_label n = "undefined" ∧
      status_label n ∉ ["Cancelled", "Preparing", "Delivering", "Delivered"]) := by
  refine ⟨?_, by decide, by decide, by decide, by decide, status_map_get_num n, ?_⟩
  · rw [order_row_eq]
    simp only [order_cells, status_map_get_num]
  · intro h0 h1 h2 h3
    refine ⟨status_map_get_other n h0 h1 h2 h3, ?_, ?_⟩ <;>
    simp [status_label, h0, h1, h2, h3]

/-- An instance of C10: the status code 7 has no label, its cell shows
"undefined". -/
theorem status_cell_label_witness :
    status_map_get (JsVal.num 7) = JsVal.undefined ∧ status_label 7 = "undefined" ∧
      status_label 7 ∉ ["Cancelled", "Preparing", "Delivering", "Delivered"] :=
  (status_cell_label 0 JsVal.null JsVal.null JsVal.null JsVal.null JsVal.null 7).2.2.2.2.2.2
    (by decide) (by decide) (by decide) (by decide)

/-! ## The table parser reads the markup of a table back -/

theorem expect_append (l s : List Char) : expect l (l ++ s) = some s := by
  induction l with
  | nil => cases s <;> rfl
  | cons a l ih => simp [expect, ih]

theorem read_text_append (t s : List Char) (h : t.all text_char = true) :
    read_text (t ++ '<' :: s) = some (t, '<' :: s) := by
  induction t with
  | nil => simp [read_text]
  | cons c t ih =>
    simp only [List.all_cons, Bool.and_eq_true] at h
    have hc : c ≠ '<' := by
      intro heq
      rw [heq] at h
      exact absurd h.1 (by decide)
    simp [read_text, hc, h.1, ih h.2]

theorem read_name_append (n s : List Char) (h : n.all name_char = true) :
    read_name (n ++ '=' :: s) = some (n, s) := by
  induction n with
  | nil => simp [read_name]
  | cons c n ih =>
    simp only [List.all_cons, Bool.and_eq_true] at h
    have hc : c ≠ '=' := by
      intro heq
      rw [heq] at h
      exact absurd h.1 (by decide)
    simp [read_name, hc, h.1, ih h.2]

theorem read_value_append (v s : List Char) (h : v.all value_char = true) :
    read_value (v ++ quote_char :: s) = some (v, s) := by
  induction v with
  | nil => simp [read_value]
  | cons c v ih =>
    simp only [List.all_cons, Bool.and_eq_true] at h
    have hc : c ≠ quote_char := by
      intro heq
      rw [heq] at h
      exact absurd h.1 (by decide)
    simp [read_value, hc, h.1, ih h.2]

theorem parse_attrs_markup (attrs : List (String × String)) :
    ∀ (fuel : Nat) (s : List Char), attrs_ok attrs = true →
      (attrs_markup attrs ++ '>' :: s).length < fuel →
      parse_attrs fuel (attrs_markup attrs ++ '>' :: s) = some (attrs, s) := by
  induction attrs with
  | nil =>
    intro fuel s _ hlen
    cases fuel with
    | zero => simp at hlen
    | succ fuel => simp [attrs_markup, parse_attrs]
  | cons a attrs ih =>
    intro fuel s hok hlen
    cases fuel with
    | zero => simp at hlen
    | succ fuel =>
      simp only [attrs_ok, Bool.and_eq_true, bne_iff_ne, ne_eq,
        Bool.not_eq_true_eq_eq_false] at hok
      obtain ⟨⟨⟨⟨hne, hname⟩, hvalue⟩, hdup⟩, hrest⟩ := hok
      have hlen2 : (attrs_markup attrs ++ '>' :: s).length < fuel := by
        simp only [attrs_markup, attr_markup, List.length_append, List.length_cons,
          List.cons_append, List.append_assoc] at hlen ⊢
        omega
      have e1 : attrs_markup (a :: attrs) ++ '>' :: s =
          ' ' :: (a.1.data ++ '=' :: (quote_char :: (a.2.data ++ quote_char ::
            (attrs_markup attrs ++ '>' :: s)))) := by
        simp [attrs_markup, attr_markup]
      rw [e1]
      simp only [parse_attrs]
      rw [read_name_append _ _ hname]
      simp only [expect, hne, if_false, if_true]
      rw [read_value_append _ _ hvalue]
      simp [ih fuel s hrest hlen2, hdup]

theorem parse_cells_markup (tag : List Char) (cells : List Cell) :
    ∀ (fuel : Nat) (s : List Char), cells.all cell_ok = true →
      expect ('<' :: tag) s = none →
      (cells_markup tag cells ++ s).length < fuel →
      parse_cells tag fuel (cells_markup tag cells ++ s) = some (cells, s) := by
  induction cells with
  | nil =>
    intro fuel s _ hstop hlen
    cases fuel with
    | zero => simp at hlen
    | succ fuel => simp [cells_markup, parse_cells, hstop]
  | cons c cells ih =>
    intro fuel s hok hstop hlen
    cases fuel with
    | zero => simp at hlen
    | succ fuel =>
      simp only [List.all_cons, Bool.and_eq_true, cell_ok] at hok
      obtain ⟨⟨hattrs, htext⟩, hrest⟩ := hok
      have e1 : cells_markup tag (c :: cells) ++ s =
          ('<' :: tag) ++ (attrs_markup c.attributes ++ '>' :: (c.text.data ++ '<' ::
            ('/' :: tag ++ '>' :: (cells_markup tag cells ++ s)))) := by
        simp [cells_markup, cell_markup]
      have e2 : '<' :: ('/' :: tag ++ '>' :: (cells_markup tag cells ++ s)) =
          ('<' :: '/' :: tag ++ ['>']) ++ (cells_markup tag cells ++ s) := by
        simp
      have hlen1 : (attrs_markup c.attributes ++ '>' :: (c.text.data ++ '<' ::
            ('/' :: tag ++ '>' :: (cells_markup tag cells ++ s)))).length < fuel + 1 := by
        rw [e1] at hlen
        simp only [List.length_append, List.length_cons] at hlen ⊢
        omega
      have hlen2 : (cells_markup tag cells ++ s).length < fuel := by
        rw [e1] at hlen
        simp only [List.length_append, List.length_cons] at hlen ⊢
        omega
      rw [e1]
      simp only [parse_cells]
      rw [expect_append]
      simp only []
      rw [parse_attrs_markup _ _ _ hattrs hlen1]
      simp only []
      rw [read_text_append _ _ htext]
      simp only []
      rw [e2, expect_append]
      simp only []
      rw [ih fuel s hrest hstop hlen2]

theorem parse_rows_markup (tag : List Char) (rows : List Row)
    (htag : ∀ s, expect ('<' :: tag) ('<' :: '/' :: 't' :: 'r' :: '>' :: s) = none) :
    ∀ (fuel : Nat) (s : List Char), rows.all row_ok = true →
      expect ['<', 't', 'r'] s = none →
      (rows_markup tag rows ++ s).length < fuel →
      parse_rows tag fuel (rows_markup tag rows ++ s) = some (rows, s) := by
  induction rows with
  | nil =>
    intro fuel s _ hstop hlen
    cases fuel with
    | zero => simp at hlen
    | succ fuel => simp [rows_markup, parse_rows, hstop]
  | cons r rows ih =>
    intro fuel s hok hstop hlen
    cases fuel with
    | zero => simp at hlen
    | succ fuel =>
      simp only [List.all_cons, Bool.and_eq_true, row_ok] at hok
      obtain ⟨⟨hattrs, hcells⟩, hrest⟩ := hok
      have e1 : rows_markup tag (r :: rows) ++ s =
          ['<', 't', 'r'] ++ (attrs_markup r.attributes ++ '>' :: (cells_markup tag r.cells ++
            ('<' :: '/' :: 't' :: 'r' :: '>' :: (rows_markup tag rows ++ s)))) := by
        simp [rows_markup, row_markup]
      have e2 : '<' :: '/' :: 't' :: 'r' :: '>' :: (rows_markup tag rows ++ s) =
          ['<', '/', 't', 'r', '>'] ++ (rows_markup tag rows ++ s) := rfl
      have hlen1 : (attrs_markup r.attributes ++ '>' :: (cells_markup tag r.cells ++
            ('<' :: '/' :: 't' :: 'r' :: '>' :: (rows_markup tag rows ++ s)))).length
              < fuel + 1 := by
        rw [e1] at hlen
        simp only [List.length_append, List.length_cons] at hlen ⊢
        omega
      have hlen2 : (cells_markup tag r.cells ++
            ('<' :: '/' :: 't' :: 'r' :: '>' :: (rows_markup tag rows ++ s))).length
              < fuel + 1 := by
        simp only [List.length_append, List.length_cons] at hlen1 ⊢
        omega
      have hlen3 : (rows_markup tag rows ++ s).length < fuel := by
        rw [e1] at hlen
        simp only [List.length_append, List.length_cons] at hlen ⊢
        omega
      rw [e1]
      simp only [parse_rows]
      rw [expect_append]
      simp only []
      rw [parse_attrs_markup _ _ _ hattrs hlen1]
      simp only []
      rw [parse_cells_markup tag _ _ _ hcells (htag _) hlen2]
      simp only []
      rw [e2, expect_append]
      simp only []
      rw [ih fuel s hrest hstop hlen3]

theorem parse_table_markup (t : Table) (fuel : Nat) (hok : table_ok t = true)
    (hlen : (table_markup t).length < fuel) :
    parse_table fuel (table_markup t) = some t := by
  simp only [table_ok, Bool.and_eq_true] at hok
  obtain ⟨⟨hattrs, hhead⟩, hbody⟩ := hok
  have hlen1 : (attrs_markup t.attributes ++ '>' :: (['<', 't', 'h', 'e', 'a', 'd', '>'] ++
      (rows_markup ['t', 'h'] t.head ++
        (['<', '/', 't', 'h', 'e', 'a', 'd', '>', '<', 't', 'b', 'o', 'd', 'y', '>'] ++
        (rows_markup ['t', 'd'] t.body ++ (['<', '/', 't', 'b', 'o', 'd', 'y', '>', '<', '/',
          't', 'a', 'b', 'l', 'e', '>'] ++ [])))))).length < fuel := by
    simp only [table_markup, List.length_append, List.length_cons, List.length_nil] at hlen ⊢
    omega
  have hlen2 : (rows_markup ['t', 'h'] t.head ++
        (['<', '/', 't', 'h', 'e', 'a', 'd', '>', '<', 't', 'b', 'o', 'd', 'y', '>'] ++
        (rows_markup ['t', 'd'] t.body ++ (['<', '/', 't', 'b', 'o', 'd', 'y', '>', '<', '/',
          't', 'a', 'b', 'l', 'e', '>'] ++ [])))).length < fuel := by
    simp only [List.length_append, List.length_cons, List.length_nil] at hlen1 ⊢
    omega
  have hlen3 : (rows_markup ['t', 'd'] t.body ++ (['<', '/', 't', 'b', 'o', 'd', 'y', '>',
      '<', '/', 't', 'a', 'b', 'l', 'e', '>'] ++ [])).length < fuel := by
    simp only [List.length_append, List.length_cons, List.length_nil] at hlen2 ⊢
    omega
  have e0 : table_markup t = ['<', 't', 'a', 'b', 'l', 'e'] ++ (attrs_markup t.attributes ++
      '>' :: (['<', 't', 'h', 'e', 'a', 'd', '>'] ++ (rows_markup ['t', 'h'] t.head ++
        (['<', '/', 't', 'h', 'e', 'a', 'd', '>', '<', 't', 'b', 'o', 'd', 'y', '>'] ++
        (rows_markup ['t', 'd'] t.body ++ (['<', '/', 't', 'b', 'o', 'd', 'y', '>', '<', '/',
          't', 'a', 'b', 'l', 'e', '>'] ++ [])))))) := by
    simp [table_markup]
  rw [e0]
  simp only [parse_table]
  rw [expect_append]
  simp only []
  rw [parse_attrs_markup _ _ _ hattrs hlen1]
  simp only []
  rw [expect_append]
  simp only []
  rw [parse_rows_markup ['t', 'h'] _ (fun s => by simp [expect]) _ _ hhead (by simp [expect])
    hlen2]
  simp only []
  rw [expect_append]
  simp only []
  rw [parse_rows_markup ['t', 'd'] _ (fun s => by simp [expect]) _ _ hbody (by simp [expect])
    hlen3]
  simp only []
  rw [expect_append]
  simp

/-- The table model reads the markup of a well-formed table back as that
table. -/
theorem render_table_markup (markup : String) (t : Table) (hok : table_ok t = true)
    (h : markup.data = table_markup t) : render_table markup = some t := by
  unfold render_table
  rw [h]
  exact parse_table_markup t _ hok (by simp [String.length, h])

/-! ## The markup the search continuations write is the markup of a table -/

theorem digitChar_isDigit (d : Nat) (h : d < 10) : (Nat.digitChar d).isDigit = true := by
  interval_cases d <;> decide

theorem toDigitsCore_isDigit (fuel : Nat) :
    ∀ (n : Nat) (ds : List Char), (∀ c ∈ ds, c.isDigit = true) →
      ∀ c ∈ Nat.toDigitsCore 10 fuel n ds, c.isDigit = true := by
  induction fuel with
  | zero => intro n ds h; simpa [Nat.toDigitsCore] using h
  | succ fuel ih =>
    intro n ds h
    have hd : (Nat.digitChar (n % 10)).isDigit = true := digitChar_isDigit _ (by omega)
    have hds : ∀ c ∈ Nat.digitChar (n % 10) :: ds, c.isDigit = true := by
      intro c hc
      rcases List.mem_cons.mp hc with rfl | hc
      · exact hd
      · exact h c hc
    simp only [Nat.toDigitsCore]
    split
    · exact hds
    · exact ih _ _ hds

theorem nat_toString_isDigit (i : Nat) : ∀ c ∈ (toString i).data, c.isDigit = true := by
  show ∀ c ∈ (Nat.repr i).data, c.isDigit = true
  simp only [Nat.repr, Nat.toDigits, List.asString]
  exact toDigitsCore_isDigit _ _ _ (by simp)

theorem isDigit_value_char (c : Char) (h : c.isDigit = true) : value_char c = true := by
  have h1 : c ≠ quote_char := by rintro rfl; exact absurd h (by decide)
  have h2 : c ≠ '&' := by rintro rfl; exact absurd h (by decide)
  have h3 : c ≠ '<' := by rintro rfl; exact absurd h (by decide)
  have h4 : c ≠ '>' := by rintro rfl; exact absurd h (by decide)
  have h5 : c ≠ Char.ofNat 0 := by rintro rfl; exact absurd h (by decide)
  have h6 : c ≠ Char.ofNat 13 := by rintro rfl; exact absurd h (by decide)
  simp [value_char, h1, h2, h3, h4, h5, h6]

theorem body_row_ok (i : Nat) (cells : List String) (h : cells.all plain_text = true) :
    row_ok (body_row i cells) = true := by
  have hid : (toString i).data.all value_char = true := by
    rw [List.all_eq_true]
    intro c hc
    exact isDigit_value_char c (nat_toString_isDigit i c hc)
  have hrow : ("row_" : String).data.all value_char = true := by decide
  have hname : ("id" : String).data.all name_char = true := by decide
  have hne : ("id" : String).data ≠ [] := by decide
  have hcells : (cells.map fun t => ({ attributes := [], text := t } : Cell)).all cell_ok
      = true := by
    rw [List.all_eq_true] at h ⊢
    intro c hc
    obtain ⟨t, ht, rfl⟩ := List.mem_map.mp hc
    simpa [cell_ok, attrs_ok, plain_text] using h t ht
  simp only [row_ok, body_row, attrs_ok, String.data_append, List.all_append, hid, hrow, hname,
    hcells, Bool.and_true, List.any_nil, Bool.not_false, bne_iff_ne, ne_eq, hne,
    not_false_eq_true, decide_True]

theorem order_body_ok (res : List Order) :
    ∀ i, res.all order_plain = true → (order_body i res).all row_ok = true := by
  induction res with
  | nil => intro i _; rfl
  | cons order rest ih =>
    intro i h
    simp only [List.all_cons, Bool.and_eq_true, order_plain] at h
    simp only [order_body, List.all_cons, Bool.and_eq_true]
    exact ⟨body_row_ok i _ h.1.2, ih (i + 1) h.2⟩

theorem item_body_ok (res : List Item) :
    ∀ i, res.all item_plain = true → (item_body i res).all row_ok = true := by
  induction res with
  | nil => intro i _; rfl
  | cons item rest ih =>
    intro i h
    simp only [List.all_cons, Bool.and_eq_true, item_plain] at h
    simp only [item_body, List.all_cons, Bool.and_eq_true]
    exact ⟨body_row_ok i _ h.1.2, ih (i + 1) h.2⟩

theorem order_table_ok (res : List Order) (h : res.all order_plain = true) :
    table_ok (order_table res) = true := by
  have hattrs : attrs_ok (order_table res).attributes = true := by
    simp only [order_table]
    decide
  have hhead : (order_table res).head.all row_ok = true := by
    simp only [order_table]
    decide
  simp only [table_ok, hattrs, hhead, Bool.true_and]
  exact order_body_ok res 0 h

theorem item_table_ok (res : List Item) (h : res.all item_plain = true) :
    table_ok (item_table res) = true := by
  have hattrs : attrs_ok (item_table res).attributes = true := by
    simp only [item_table]
    decide
  have hhead : (item_table res).head.all row_ok = true := by
    simp only [item_table]
    decide
  simp only [table_ok, hattrs, hhead, Bool.true_and]
  exact item_body_ok res 0 h

theorem td_cells_data (cells : List String) :
    (String.join (cells.map fun c => "<td>" ++ c ++ "</td>")).data =
      cells_markup ['t', 'd'] (cells.map fun t => { attributes := [], text := t }) := by
  induction cells with
  | nil => rfl
  | cons c cells ih =>
    have e1 : ("<td>" : String).data = ['<', 't', 'd', '>'] := rfl
    have e2 : ("</td>" : String).data = ['<', '/', 't', 'd', '>'] := rfl
    simp only [List.map_cons, join_cons, String.data_append, ih, cells_markup, cell_markup,
      attrs_markup, e1, e2]
    simp

theorem table_row_data (i : Nat) (cells : List String) :
    (table_row i cells).data = row_markup ['t', 'd'] (body_row i cells) := by
  have e1 : ("<tr id=\"row_" : String).data =
      ['<', 't', 'r', ' ', 'i', 'd', '=', quote_char, 'r', 'o', 'w', '_'] := rfl
  have e2 : ("\">" : String).data = [quote_char, '>'] := rfl
  have e3 : ("</tr>" : String).data = ['<', '/', 't', 'r', '>'] := rfl
  have e4 : ("id" : String).data = ['i', 'd'] := rfl
  have e5 : ("row_" : String).data = ['r', 'o', 'w', '_'] := rfl
  simp only [table_row, String.data_append, td_cells_data, row_markup, body_row, attrs_markup,
    attr_markup, e1, e2, e3, e4, e5]
  simp [quote_char]

theorem order_rows_data (res : List Order) :
    ∀ i, (String.join (order_rows i res)).data = rows_markup ['t', 'd'] (order_body i res) := by
  induction res with
  | nil => intro i; rfl
  | cons order rest ih =>
    intro i
    simp only [order_rows, order_body, rows_markup, join_cons, String.data_append, ih,
      table_row_data]

theorem item_rows_data (res : List Item) :
    ∀ i, (String.join (item_rows i res)).data = rows_markup ['t', 'd'] (item_body i res) := by
  induction res with
  | nil => intro i; rfl
  | cons item rest ih =>
    intro i
    simp only [item_rows, item_body, rows_markup, join_cons, String.data_append, ih,
      table_row_data]

theorem order_results_data (p : Page) (res : List Order) :
    (order_search_done p res).order_search_results.data = table_markup (order_table res) := by
  have e1 : order_table_head.data =
      ['<', 't', 'a', 'b', 'l', 'e'] ++ (attrs_markup (order_table res).attributes ++ '>' ::
        (['<', 't', 'h', 'e', 'a', 'd', '>'] ++ (rows_markup ['t', 'h'] (order_table res).head ++
          ['<', '/', 't', 'h', 'e', 'a', 'd', '>', '<', 't', 'b', 'o', 'd', 'y', '>']))) := by
    simp only [order_table]
    decide
  have e2 : ("</tbody></table>" : String).data =
      ['<', '/', 't', 'b', 'o', 'd', 'y', '>', '<', '/', 't', 'a', 'b', 'l', 'e', '>'] := rfl
  rw [order_search_done_results]
  simp only [String.data_append, order_rows_data, e1, e2, table_markup]
  simp [order_table]

theorem item_results_data (p : Page) (res : List Item) :
    (item_search_done p res).item_search_results.data = table_markup (item_table res) := by
  have e1 : item_table_head.data =
      ['<', 't', 'a', 'b', 'l', 'e'] ++ (attrs_markup (item_table res).attributes ++ '>' ::
        (['<', 't', 'h', 'e', 'a', 'd', '>'] ++ (rows_markup ['t', 'h'] (item_table res).head ++
          ['<', '/', 't', 'h', 'e', 'a', 'd', '>', '<', 't', 'b', 'o', 'd', 'y', '>']))) := by
    simp only [item_table]
    decide
  have e2 : ("</tbody></table>" : String).data =
      ['<', '/', 't', 'b', 'o', 'd', 'y', '>', '<', '/', 't', 'a', 'b', 'l', 'e', '>'] := rfl
  rw [item_search_done_results]
  simp only [String.data_append, item_rows_data, e1, e2, table_markup]
  simp [item_table]

/-- For plain records the browser builds the order table with one body row for
each record. -/
theorem render_order_results (p : Page) (res : List Order)
    (h : res.all order_plain = true) :
    render_table (order_search_done p res).order_search_results = some (order_table res) :=
  render_table_markup _ _ (order_table_ok res h) (order_results_data p res)

/-- For plain records the browser builds the item table with one body row for
each record. -/
theorem render_item_results (p : Page) (res : List Item)
    (h : res.all item_plain = true) :
    render_table (item_search_done p res).item_search_results = some (item_table res) :=
  render_table_markup _ _ (item_table_ok res h) (item_results_data p res)

theorem order_body_length (res : List Order) : ∀ i, (order_body i res).length = res.length := by
  induction res with
  | nil => intro i; rfl
  | cons order rest ih => intro i; simp [order_body, ih]

theorem item_body_length (res : List Item) : ∀ i, (item_body i res).length = res.length := by
  induction res with
  | nil => intro i; rfl
  | cons item rest ih => intro i; simp [item_body, ih]

theorem order_body_getElem? (res : List Order) :
    ∀ i k, (order_body i res)[k]? = (res[k]?).map fun o => body_row (i + k) (order_cells o) := by
  induction res with
  | nil => intro i k; simp [order_body]
  | cons order rest ih =>
    intro i k
    cases k with
    | zero => simp [order_body]
    | succ k =>
      simp only [order_body, List.getElem?_cons_succ]
      rw [ih]
      have : i + 1 + k = i + (k + 1) := by omega
      rw [this]

theorem item_body_getElem? (res : List Item) :
    ∀ i k, (item_body i res)[k]? = (res[k]?).map fun o => body_row (i + k) (item_cells o) := by
  induction res with
  | nil => intro i k; simp [item_body]
  | cons item rest ih =>
    intro i k
    cases k with
    | zero => simp [item_body]
    | succ k =>
      simp only [item_body, List.getElem?_cons_succ]
      rw [ih]
      have : i + 1 + k = i + (k + 1) := by omega
      rw [this]

theorem cell_texts_body_row (k : Nat) (cells : List String) :
    cell_texts (body_row k cells) = cells := by
  simp [cell_texts, body_row, Function.comp_def]

/-! ## C5: the search result table and the form -/

/-- C5, as the code has it.  Let the records of the response be plain: no text
written into a cell holds `<`, `&`, NUL or a carriage return, every number is
a safe integer and no order status is a string.  Then the table the browser
builds from what the order search (item search) success continuation appends
has one body row for each record, row `k` having id `row_k` and showing the
texts of `res[k]`.  For an empty response the body has no row and both forms
are left as they were.  For a non-empty response the form takes the fields of
the first record, and a cell of the first row and the form field of the same
column hold the same text whenever the record's field is a string or a number,
except in the status column of the order table, where the cell shows the label
looked up for the status code and the form field holds the code. -/
theorem search_table_and_form (p : Page) (res : List Order) (order : Order)
    (rest : List Order) (ires : List Item) (item : Item) (irest : List Item) :
    (res.all order_plain = true →
      render_table (order_search_done p res).order_search_results = some (order_table res) ∧
      (order_table res).body.length = res.length ∧
      ∀ k, (order_table res).body[k]? = (res[k]?).map fun o => body_row k (order_cells o)) ∧
    (render_table (order_search_done p []).order_search_results = some (order_table []) ∧
      (order_table []).body = [] ∧
      (order_search_done p []).order = p.order ∧ (order_search_done p []).item = p.item) ∧
    ((order_search_done p (order :: rest)).order = order_form_of order ∧
      order_form_values (order_search_done p (order :: rest)).order =
        [val_text order.id, val_text order.amount, val_text order.status,
         val_text order.address, val_text order.customer_id, val_text order.date] ∧
      ((order :: rest).all order_plain = true →
        (render_table (order_search_done p (order :: rest)).order_search_results).map
            (fun t => t.body.head?.map cell_texts) =
          some (some [template_text order.id, template_text order.amount,
            template_text (status_map_get order.status), template_text order.address,
            template_text order.customer_id, template_text order.date]) ∧
        (is_text_or_number order.id = true → is_text_or_number order.amount = true →
          is_text_or_number order.address = true →
          is_text_or_number order.customer_id = true →
          is_text_or_number order.date = true →
          (render_table (order_search_done p (order :: rest)).order_search_results).map
              (fun t => t.body.head?.map fun r => (cell_texts r).eraseIdx 2) =
            some (some ((order_form_values
              (order_search_done p (order :: rest)).order).eraseIdx 2))))) ∧
    (ires.all item_plain = true →
      render_table (item_search_done p ires).item_search_results = some (item_table ires) ∧
      (item_table ires).body.length = ires.length ∧
      ∀ k, (item_table ires).body[k]? = (ires[k]?).map fun o => body_row k (item_cells o)) ∧
    (render_table (item_search_done p []).item_search_results = some (item_table []) ∧
      (item_table []).body = [] ∧
      (item_search_done p []).item = p.item ∧ (item_search_done p []).order = p.order) ∧
    ((item_search_done p (item :: irest)).item = item_form_of item ∧
      item_form_values (item_search_done p (item :: irest)).item =
        [val_text item.order_id, val_text item.product_id, val_text item.price,
         val_text item.quantity] ∧
      ((item :: irest).all item_plain = true →
        (render_table (item_search_done p (item :: irest)).item_search_results).map
            (fun t => t.body.head?.map cell_texts) =
          some (some [template_text item.order_id, template_text item.product_id,
            template_text item.price, template_text item.quantity]) ∧
        (is_text_or_number item.order_id = true → is_text_or_number item.product_id = true →
          is_text_or_number item.price = true → is_text_or_number item.quantity = true →
          (render_table (item_search_done p (item :: irest)).item_search_results).map
              (fun t => t.body.head?.map cell_texts) =
            some (some (item_form_values (item_search_done p (item :: irest)).item))))) ∧
    (∀ k cells, (body_row k cells).attributes = [("id", "row_" ++ toString k)] ∧
      cell_texts (body_row k cells) = cells) ∧
    ∀ v, is_text_or_number v = true → template_text v = val_text v := by
  refine ⟨?_, ⟨render_order_results p [] rfl, rfl, (order_search_done_nil p).1,
      (order_search_done_nil p).2⟩,
    ⟨(order_search_done_cons p order rest).1, ?_, ?_⟩, ?_,
    ⟨render_item_results p [] rfl, rfl, (item_search_done_nil p).1,
      (item_search_done_nil p).2⟩,
    ⟨(item_search_done_cons p item irest).1, ?_, ?_⟩,
    fun k cells => ⟨rfl, cell_texts_body_row k cells⟩, template_text_eq_val_text⟩
  · intro h
    refine ⟨render_order_results p res h, order_body_length res 0, ?_⟩
    intro k
    show (order_body 0 res)[k]? = _
    rw [order_body_getElem?]
    simp
  · rw [(order_search_done_cons p order rest).1]
    rfl
  · intro h
    rw [render_order_results p _ h, (order_search_done_cons p order rest).1]
    refine ⟨?_, ?_⟩
    · simp [order_table, order_body, cell_texts_body_row, order_cells]
    · intro h1 h2 h3 h4 h5
      simp [order_table, order_body, cell_texts_body_row, order_cells, order_form_values,
        order_form_of, List.eraseIdx, template_text_eq_val_text, h1, h2, h3, h4, h5]
  · intro h
    refine ⟨render_item_results p ires h, item_body_length ires 0, ?_⟩
    intro k
    show (item_body 0 ires)[k]? = _
    rw [item_body_getElem?]
    simp
  · rw [(item_search_done_cons p item irest).1]
    rfl
  · intro h
    rw [render_item_results p _ h, (item_search_done_cons p item irest).1]
    refine ⟨?_, ?_⟩
    · simp [item_table, item_body, cell_texts_body_row, item_cells]
    · intro h1 h2 h3 h4
      simp [item_table, item_body, cell_texts_body_row, item_cells, item_form_values,
        item_form_of, template_text_eq_val_text, h1, h2, h3, h4]

/-- An instance of C5: the sample order and the sample item are plain and all
their fields are strings or numbers, so the rendered first row and the form
agree outside the status column. -/
theorem search_table_and_form_witness :
    (render_table (order_search_done sample_page [sample_order]).order_search_results).map
          (fun t => t.body.head?.map fun r => (cell_texts r).eraseIdx 2) =
        some (some ((order_form_values
          (order_search_done sample_page [sample_order]).order).eraseIdx 2)) ∧
      (render_table (item_search_done sample_page [sample_item]).item_search_results).map
          (fun t => t.body.head?.map cell_texts) =
        some (some (item_form_values
          (item_search_done sample_page [sample_item]).item)) :=
  ⟨((search_table_and_form sample_page [sample_order] sample_order [] [sample_item]
      sample_item []).2.2.1.2.2 (by decide)).2 (by decide) (by decide) (by decide)
      (by decide) (by decide),
   ((search_table_and_form sample_page [sample_order] sample_order [] [sample_item]
      sample_item []).2.2.2.2.2.1.2.2 (by decide)).2 (by decide) (by decide) (by decide)
      (by decide)⟩

/-- Against C5 as stated.  An order search answered with the one sample order
shows "Preparing" in the status cell while the form's status field holds "1".
An item search answered with an item whose price is `null` shows "null" in the
cell and leaves the price field blank.  An order search answered with one
order whose address holds row markup shows two body rows. -/
theorem first_row_differs_from_form :
    rendered_texts (order_search_done sample_page [sample_order]).order_search_results =
        some [["1", "10", "Preparing", "1 Main", "7", "2024-01-01"]] ∧
      order_form_values (order_search_done sample_page [sample_order]).order =
        ["1", "10", "1", "1 Main", "7", "2024-01-01"] ∧
      rendered_texts (order_search_done sample_page [sample_order]).order_search_results ≠
        some [order_form_values (order_search_done sample_page [sample_order]).order] ∧
      rendered_texts
          (item_search_done sample_page [sample_item_null_price]).item_search_results =
        some [["1", "2", "null", "4"]] ∧
      item_form_values (item_search_done sample_page [sample_item_null_price]).item =
        ["1", "2", "", "4"] ∧
      rendered_texts
          (order_search_done sample_page [sample_order_with_markup]).order_search_results =
        some [["1", "10", "Preparing", ""], ["x", "7", "2024-01-01"]] ∧
      [sample_order_with_markup].length = 1 := by
  decide

/-! ## C4: the displayed form after a step -/

/-- C4: after every handler completion the order form is the form before the
step, or all blank, or holds in every field the same-named field of one object
of the response the step received; the same holds of the item form. -/
theorem form_after_step (p : Page) (e : Event) :
    ((step p e).order = p.order ∨ (step p e).order = blank_order_form ∨
      ∃ r ∈ order_responses e, (step p e).order = order_form_of r) ∧
    ((step p e).item = p.item ∨ (step p e).item = blank_item_form ∨
      ∃ r ∈ item_responses e, (step p e).item = item_form_of r) := by
  cases e with
  | order_create_done res =>
    exact ⟨Or.inr (Or.inr ⟨res, by simp [order_responses], rfl⟩), Or.inl rfl⟩
  | order_update_done res =>
    exact ⟨Or.inr (Or.inr ⟨res, by simp [order_responses], rfl⟩), Or.inl rfl⟩
  | order_retrieve_done res =>
    exact ⟨Or.inr (Or.inr ⟨res, by simp [order_responses], rfl⟩), Or.inl rfl⟩
  | order_cancel_done res =>
    exact ⟨Or.inr (Or.inr ⟨res, by simp [order_responses], rfl⟩), Or.inl rfl⟩
  | order_delete_done => exact ⟨Or.inr (Or.inl rfl), Or.inl rfl⟩
  | order_clear => exact ⟨Or.inr (Or.inl rfl), Or.inl rfl⟩
  | order_create_fail res =>
    exact ⟨Or.inl (flash_error_message_order p res), Or.inl (flash_error_message_item p res)⟩
  | order_update_fail res =>
    exact ⟨Or.inl (flash_error_message_order p res), Or.inl (flash_error_message_item p res)⟩
  | order_search_fail res =>
    exact ⟨Or.inl (flash_error_message_order p res), Or.inl (flash_error_message_item p res)⟩
  | order_retrieve_fail res =>
    refine ⟨Or.inr (Or.inl ?_), Or.inl ?_⟩
    · show (flash_error_message (clear_order_form_data p) res).order = blank_order_form
      rw [flash_error_message_order, clear_order_form_data_order]
    · show (flash_error_message (clear_order_form_data p) res).item = p.item
      rw [flash_error_message_item]
      rfl
  | order_delete_fail res => exact ⟨Or.inl rfl, Or.inl rfl⟩
  | order_cancel_fail res => exact ⟨Or.inl rfl, Or.inl rfl⟩
  | order_search_done res =>
    cases res with
    | nil => exact ⟨Or.inl (order_search_done_nil p).1, Or.inl (order_search_done_nil p).2⟩
    | cons order rest =>
      exact ⟨Or.inr (Or.inr ⟨order, by simp [order_responses],
        (order_search_done_cons p order rest).1⟩), Or.inl (order_search_done_cons p order rest).2⟩
  | item_create_done res =>
    exact ⟨Or.inl rfl, Or.inr (Or.inr ⟨res, by simp [item_responses], rfl⟩)⟩
  | item_update_done res =>
    exact ⟨Or.inl rfl, Or.inr (Or.inr ⟨res, by simp [item_responses], rfl⟩)⟩
  | item_retrieve_done res =>
    exact ⟨Or.inl rfl, Or.inr (Or.inr ⟨res, by simp [item_responses], rfl⟩)⟩
  | item_delete_done => exact ⟨Or.inl rfl, Or.inr (Or.inl rfl)⟩
  | item_clear => exact ⟨Or.inl rfl, Or.inr (Or.inl rfl)⟩
  | item_create_fail res =>
    exact ⟨Or.inl (flash_error_message_order p res), Or.inl (flash_error_message_item p res)⟩
  | item_update_fail res =>
    exact ⟨Or.inl (flash_error_message_order p res), Or.inl (flash_error_message_item p res)⟩
  | item_search_fail res =>
    exact ⟨Or.inl (flash_error_message_order p res), Or.inl (flash_error_message_item p res)⟩
  | item_retrieve_fail res =>
    refine ⟨Or.inl ?_, Or.inr (Or.inl ?_)⟩
    · show (flash_error_message (clear_item_form_data p) res).order = p.order
      rw [flash_error_message_order]
      rfl
    · show (flash_error_message (clear_item_form_data p) res).item = blank_item_form
      rw [flash_error_message_item, clear_item_form_data_item]
  | item_delete_fail res => exact ⟨Or.inl rfl, Or.inl rfl⟩
  | item_search_done res =>
    cases res with
    | nil => exact ⟨Or.inl (item_search_done_nil p).2, Or.inl (item_search_done_nil p).1⟩
    | cons item rest =>
      exact ⟨Or.inl (item_search_done_cons p item rest).2,
        Or.inr (Or.inr ⟨item, by simp [item_responses], (item_search_done_cons p item rest).1⟩)⟩

end RestApi
